import Mathlib

/-!
Verification development for the seasonality-detection benchmark core
(simulation, detection orchestration, evaluation metrics).

The Python modules `simulation.py`, `detection.py` and `evaluation.py` are
shallowly embedded here.  Floating-point values are modelled as rationals.
The numpy random generator `np.random.default_rng(seed)` is modelled as a
deterministic stream: a function `rnd : seed → position → ℚ` giving the
value of the variate at each position of the stream, together with a
counter that is advanced by every draw (this mirrors the fact that the
PCG64 generator is a pure function of the seed and of how many variates
were consumed before).  The transcendental functions `sin` and `exp` and
the constant `π` are abstract parameters `sinQ`, `expQ`, `piQ`: every
theorem is proved for all of them, and witnesses instantiate them
concretely.
-/

namespace SeasBench

/-- Type of seasonality in the time series (enum `SeasonalityType`). -/
inductive SeasonalityType where
  | NONE
  | WEAK
  | MODERATE
  | STRONG
  | VARIABLE
  | EMERGING
  | FADING
deriving DecidableEq, Repr

/-- Parameters for time series simulation (`SimulationParams`).
Series lengths are naturals; the remaining numeric fields are rationals. -/
structure SimulationParams where
  n_points : ℕ := 120
  period : ℚ := 12
  trend_slope : ℚ := 0
  noise_sd : ℚ := 1
  seed : Option ℕ := none
deriving DecidableEq, Repr

/-- A simulated time series with metadata (`SimulatedSeries`). -/
structure SimulatedSeries where
  values : List ℚ
  true_period : ℚ
  true_strength : ℚ
  seasonality_type : SeasonalityType
  scenario : String
  series_id : ℕ
deriving DecidableEq, Repr

/-- State of the numpy random generator: the seed it was created from and
the number of variates consumed so far. -/
structure Rng where
  seed : ℕ
  counter : ℕ
deriving DecidableEq, Repr

section Simulation

variable (rnd : ℕ → ℕ → ℚ) (sinQ expQ : ℚ → ℚ) (piQ : ℚ)

/-- One call of `rng.uniform(lo, hi)`: consumes one variate `u` of the
stream and returns `lo + (hi - lo) * u`. -/
def rngUniform (lo hi : ℚ) (g : Rng) : ℚ × Rng :=
  (lo + (hi - lo) * rnd g.seed g.counter, ⟨g.seed, g.counter + 1⟩)

/-- `generate_noise(n, sd, rng)`, i.e. `rng.normal(0, sd, n)`: consumes
`n` variates and scales each by the standard deviation. -/
def generate_noise (n : ℕ) (sd : ℚ) (g : Rng) : List ℚ × Rng :=
  ((List.range n).map fun t => sd * rnd g.seed (g.counter + t), ⟨g.seed, g.counter + n⟩)

/-- `generate_seasonal_component(n, period, amplitude, phase)`. -/
def generate_seasonal_component (n : ℕ) (period amplitude phase : ℚ) : List ℚ :=
  (List.range n).map fun t : ℕ => amplitude * sinQ (2 * piQ * (t : ℚ) / period + phase)

/-- `generate_trend(n, slope, intercept)`. -/
def generate_trend (n : ℕ) (slope intercept : ℚ) : List ℚ :=
  (List.range n).map fun t : ℕ => intercept + slope * (t : ℚ)

/-- Elementwise sum of three equal-length numpy arrays
(`trend + seasonal + noise`). -/
def addThree (a b c : List ℚ) : List ℚ :=
  List.zipWith (fun x y => x + y) (List.zipWith (fun x y => x + y) a b) c

/-- The body of the `for i in range(n_series)` loop of scenario 1
(`strong_seasonal`): draws amplitude, phase and noise and assembles the
series for index `i`. -/
def buildStrong (params : SimulationParams) (i : ℕ) (g : Rng) : SimulatedSeries × Rng :=
  let ag := rngUniform rnd 3 5 g
  let pg := rngUniform rnd 0 (2 * piQ) ag.2
  let seasonal := generate_seasonal_component sinQ piQ params.n_points params.period ag.1 pg.1
  let trend := generate_trend params.n_points params.trend_slope 10
  let ng := generate_noise rnd params.n_points params.noise_sd pg.2
  ({ values := addThree trend seasonal ng.1
     true_period := params.period
     true_strength := ag.1 ^ 2 / (ag.1 ^ 2 + params.noise_sd ^ 2)
     seasonality_type := SeasonalityType.STRONG
     scenario := "strong_seasonal"
     series_id := i }, ng.2)

/-- Loop body of scenario 2 (`weak_seasonal`): low amplitude, doubled
noise standard deviation. -/
def buildWeak (params : SimulationParams) (i : ℕ) (g : Rng) : SimulatedSeries × Rng :=
  let ag := rngUniform rnd (3/10) (7/10) g
  let pg := rngUniform rnd 0 (2 * piQ) ag.2
  let seasonal := generate_seasonal_component sinQ piQ params.n_points params.period ag.1 pg.1
  let trend := generate_trend params.n_points params.trend_slope 10
  let ng := generate_noise rnd params.n_points (params.noise_sd * 2) pg.2
  ({ values := addThree trend seasonal ng.1
     true_period := params.period
     true_strength := ag.1 ^ 2 / (ag.1 ^ 2 + (params.noise_sd * 2) ^ 2)
     seasonality_type := SeasonalityType.WEAK
     scenario := "weak_seasonal"
     series_id := i }, ng.2)

/-- Loop body of scenario 3 (`no_seasonal`): trend plus noise only. -/
def buildNone (params : SimulationParams) (i : ℕ) (g : Rng) : SimulatedSeries × Rng :=
  let trend := generate_trend params.n_points params.trend_slope 10
  let ng := generate_noise rnd params.n_points params.noise_sd g
  ({ values := List.zipWith (fun x y => x + y) trend ng.1
     true_period := 0
     true_strength := 0
     seasonality_type := SeasonalityType.NONE
     scenario := "no_seasonal"
     series_id := i }, ng.2)

/-- Loop body of scenario 4 (`trending_seasonal`): extra uniform draw for
the strong slope used by the trend. -/
def buildTrending (params : SimulationParams) (i : ℕ) (g : Rng) : SimulatedSeries × Rng :=
  let ag := rngUniform rnd 2 4 g
  let pg := rngUniform rnd 0 (2 * piQ) ag.2
  let sg := rngUniform rnd (3/10) (1/2) pg.2
  let seasonal := generate_seasonal_component sinQ piQ params.n_points params.period ag.1 pg.1
  let trend := generate_trend params.n_points sg.1 10
  let ng := generate_noise rnd params.n_points params.noise_sd sg.2
  ({ values := addThree trend seasonal ng.1
     true_period := params.period
     true_strength := ag.1 ^ 2 / (ag.1 ^ 2 + params.noise_sd ^ 2)
     seasonality_type := SeasonalityType.MODERATE
     scenario := "trending_seasonal"
     series_id := i }, ng.2)

/-- Loop body of scenario 5 (`variable_amplitude`): the amplitude itself
varies sinusoidally over time (`n_points / 2` here is Python float
division). -/
def buildVariable (params : SimulationParams) (i : ℕ) (g : Rng) : SimulatedSeries × Rng :=
  let ag := rngUniform rnd 2 4 g
  let pg := rngUniform rnd 0 (2 * piQ) ag.2
  let seasonal := (List.range params.n_points).map fun t : ℕ =>
    (ag.1 * (1 + 1/2 * sinQ (2 * piQ * (t : ℚ) / ((params.n_points : ℚ) / 2)))) *
      sinQ (2 * piQ * (t : ℚ) / params.period + pg.1)
  let trend := generate_trend params.n_points params.trend_slope 10
  let ng := generate_noise rnd params.n_points params.noise_sd pg.2
  ({ values := addThree trend seasonal ng.1
     true_period := params.period
     true_strength := ag.1 ^ 2 / (ag.1 ^ 2 + params.noise_sd ^ 2)
     seasonality_type := SeasonalityType.VARIABLE
     scenario := "variable_amplitude"
     series_id := i }, ng.2)

/-- Loop body of scenario 6 (`emerging_seasonal`): sigmoid transition from
zero to full amplitude.  `midpoint = n_points // 2` and
`transition_width = n_points // 10` are Python integer divisions. -/
def buildEmerging (params : SimulationParams) (i : ℕ) (g : Rng) : SimulatedSeries × Rng :=
  let ag := rngUniform rnd 3 5 g
  let pg := rngUniform rnd 0 (2 * piQ) ag.2
  let midpoint := params.n_points / 2
  let width := params.n_points / 10
  let seasonal := (List.range params.n_points).map fun t : ℕ =>
    ag.1 * (1 / (1 + expQ (-(((t : ℚ) - (midpoint : ℚ)) / (width : ℚ))))) *
      sinQ (2 * piQ * (t : ℚ) / params.period + pg.1)
  let trend := generate_trend params.n_points params.trend_slope 10
  let ng := generate_noise rnd params.n_points params.noise_sd pg.2
  ({ values := addThree trend seasonal ng.1
     true_period := params.period
     true_strength := ag.1 ^ 2 / (ag.1 ^ 2 + params.noise_sd ^ 2)
     seasonality_type := SeasonalityType.EMERGING
     scenario := "emerging_seasonal"
     series_id := i }, ng.2)

/-- Loop body of scenario 7 (`fading_seasonal`): inverse sigmoid from full
amplitude down to zero. -/
def buildFading (params : SimulationParams) (i : ℕ) (g : Rng) : SimulatedSeries × Rng :=
  let ag := rngUniform rnd 3 5 g
  let pg := rngUniform rnd 0 (2 * piQ) ag.2
  let midpoint := params.n_points / 2
  let width := params.n_points / 10
  let seasonal := (List.range params.n_points).map fun t : ℕ =>
    ag.1 * (1 - 1 / (1 + expQ (-(((t : ℚ) - (midpoint : ℚ)) / (width : ℚ))))) *
      sinQ (2 * piQ * (t : ℚ) / params.period + pg.1)
  let trend := generate_trend params.n_points params.trend_slope 10
  let ng := generate_noise rnd params.n_points params.noise_sd pg.2
  ({ values := addThree trend seasonal ng.1
     true_period := params.period
     true_strength := ag.1 ^ 2 / (ag.1 ^ 2 + params.noise_sd ^ 2)
     seasonality_type := SeasonalityType.FADING
     scenario := "fading_seasonal"
     series_id := i }, ng.2)

end Simulation

/-- The `for i in range(n_series)` loop shared by all scenario generators:
builds `k` series starting at index `i`, threading the generator state. -/
def genLoop (build : ℕ → Rng → SimulatedSeries × Rng) :
    ℕ → ℕ → Rng → List SimulatedSeries × Rng
  | 0, _, g => ([], g)
  | Nat.succ k, i, g =>
      let sg := build i g
      let rest := genLoop build k (i + 1) sg.2
      (sg.1 :: rest.1, rest.2)

section Scenarios

variable (rnd : ℕ → ℕ → ℚ) (sinQ expQ : ℚ → ℚ) (piQ : ℚ)

/-- `generate_scenario_1_strong_seasonal(n_series, params, rng)`. -/
def generate_scenario_1_strong_seasonal (n_series : ℕ) (params : SimulationParams) (g : Rng) :
    List SimulatedSeries × Rng :=
  genLoop (buildStrong rnd sinQ piQ params) n_series 0 g

/-- `generate_scenario_2_weak_seasonal(n_series, params, rng)`. -/
def generate_scenario_2_weak_seasonal (n_series : ℕ) (params : SimulationParams) (g : Rng) :
    List SimulatedSeries × Rng :=
  genLoop (buildWeak rnd sinQ piQ params) n_series 0 g

/-- `generate_scenario_3_no_seasonal(n_series, params, rng)`. -/
def generate_scenario_3_no_seasonal (n_series : ℕ) (params : SimulationParams) (g : Rng) :
    List SimulatedSeries × Rng :=
  genLoop (buildNone rnd params) n_series 0 g

/-- `generate_scenario_4_trending_seasonal(n_series, params, rng)`. -/
def generate_scenario_4_trending_seasonal (n_series : ℕ) (params : SimulationParams) (g : Rng) :
    List SimulatedSeries × Rng :=
  genLoop (buildTrending rnd sinQ piQ params) n_series 0 g

/-- `generate_scenario_5_variable_amplitude(n_series, params, rng)`. -/
def generate_scenario_5_variable_amplitude (n_series : ℕ) (params : SimulationParams) (g : Rng) :
    List SimulatedSeries × Rng :=
  genLoop (buildVariable rnd sinQ piQ params) n_series 0 g

/-- `generate_scenario_6_emerging_seasonal(n_series, params, rng)`. -/
def generate_scenario_6_emerging_seasonal (n_series : ℕ) (params : SimulationParams) (g : Rng) :
    List SimulatedSeries × Rng :=
  genLoop (buildEmerging rnd sinQ expQ piQ params) n_series 0 g

/-- `generate_scenario_7_fading_seasonal(n_series, params, rng)`. -/
def generate_scenario_7_fading_seasonal (n_series : ℕ) (params : SimulationParams) (g : Rng) :
    List SimulatedSeries × Rng :=
  genLoop (buildFading rnd sinQ expQ piQ params) n_series 0 g

/-- `generate_all_scenarios(n_series_per_scenario, params, seed)`:
creates one generator from the seed and threads it sequentially through
the seven scenario generators in the fixed order, concatenating the
blocks. -/
def generate_all_scenarios (n_series_per_scenario : ℕ) (params : SimulationParams)
    (seed : ℕ) : List SimulatedSeries :=
  let g0 : Rng := ⟨seed, 0⟩
  let r1 := generate_scenario_1_strong_seasonal rnd sinQ piQ n_series_per_scenario params g0
  let r2 := generate_scenario_2_weak_seasonal rnd sinQ piQ n_series_per_scenario params r1.2
  let r3 := generate_scenario_3_no_seasonal rnd n_series_per_scenario params r2.2
  let r4 := generate_scenario_4_trending_seasonal rnd sinQ piQ n_series_per_scenario params r3.2
  let r5 := generate_scenario_5_variable_amplitude rnd sinQ piQ n_series_per_scenario params r4.2
  let r6 := generate_scenario_6_emerging_seasonal rnd sinQ expQ piQ n_series_per_scenario params r5.2
  let r7 := generate_scenario_7_fading_seasonal rnd sinQ expQ piQ n_series_per_scenario params r6.2
  r1.1 ++ (r2.1 ++ (r3.1 ++ (r4.1 ++ (r5.1 ++ (r6.1 ++ r7.1)))))

/-- The fixed block order of scenario tags. -/
def scenarioOrder : List String :=
  ["strong_seasonal", "weak_seasonal", "no_seasonal", "trending_seasonal",
   "variable_amplitude", "emerging_seasonal", "fading_seasonal"]

/-- Placeholder series used as the default of positional lookups. -/
def dummySeries : SimulatedSeries :=
  { values := [], true_period := 0, true_strength := 0,
    seasonality_type := SeasonalityType.NONE, scenario := "", series_id := 0 }

end Scenarios

/-! ### Detection (`detection.py`)

The Detection Backend (the DuckDB extension reached through SQL queries)
is modelled as a record of fallible operations: each call either returns a
structured response or fails with an exception message. -/

/-- A value stored in the open `extra` metadata dictionary. -/
inductive ExtraVal where
  | str (v : String)
  | num (v : ℚ)
  | int (v : ℤ)
  | nums (v : List ℚ)
  | ints (v : List ℤ)
deriving DecidableEq, Repr

/-- Result from a single detection method on a single series
(`DetectionResult`). -/
structure DetectionResult where
  series_id : ℕ
  scenario : String
  method : String
  detected_period : Option ℚ
  confidence : ℚ
  strength : ℚ
  is_seasonal : Bool
  classification : Option String
  extra : List (String × ExtraVal)
deriving DecidableEq, Repr

/-- Response of `ts_detect_periods(values, 'fft')`; absent dictionary keys
are `none` (the Python code reads them with `.get` and a default). -/
structure FftResp where
  primary_period : Option ℚ
  confidence : Option ℚ
  n_periods : Option ℤ
deriving DecidableEq, Repr

/-- Response of `ts_estimate_period_acf(values)`. -/
structure AcfResp where
  period : Option ℚ
  confidence : Option ℚ
  acf_values : Option (List ℚ)
deriving DecidableEq, Repr

/-- Response of `ts_classify_seasonality(values, period)`. -/
structure ClassifyResp where
  classification : Option String
  mean_strength : Option ℚ
  is_seasonal : Option Bool
  cycle_strengths : Option (List ℚ)
  n_cycles : Option ℤ
deriving DecidableEq, Repr

/-- Response of `ts_detect_seasonality_changes(values, period)`. -/
structure ChangesResp where
  n_changes : Option ℤ
  change_points : Option (List ℤ)
  strength_curve : Option (List ℚ)
deriving DecidableEq, Repr

/-- The Detection Backend: one fallible operation per SQL entry point.
`Except.error e` models the backend raising an exception with message
`e`. -/
structure Backend where
  detect_periods : List ℚ → Except String FftResp
  estimate_period_acf : List ℚ → Except String AcfResp
  seasonal_strength : List ℚ → ℚ → String → Except String (Option ℚ)
  classify_seasonality : List ℚ → ℚ → Except String ClassifyResp
  detect_seasonality_changes : List ℚ → ℚ → Except String ChangesResp

/-- `run_fft_detection(conn, series)`. -/
def run_fft_detection (B : Backend) (s : SimulatedSeries) : DetectionResult :=
  match B.detect_periods s.values with
  | Except.ok r =>
      { series_id := s.series_id, scenario := s.scenario, method := "fft"
        detected_period := r.primary_period
        confidence := r.confidence.getD 0
        strength := r.confidence.getD 0
        is_seasonal := decide (0 < r.n_periods.getD 0)
        classification := none
        extra := [("n_periods", ExtraVal.int (r.n_periods.getD 0))] }
  | Except.error e =>
      { series_id := s.series_id, scenario := s.scenario, method := "fft"
        detected_period := none, confidence := 0, strength := 0
        is_seasonal := false, classification := none
        extra := [("error", ExtraVal.str e)] }

/-- `run_acf_detection(conn, series)`. -/
def run_acf_detection (B : Backend) (s : SimulatedSeries) : DetectionResult :=
  match B.estimate_period_acf s.values with
  | Except.ok r =>
      { series_id := s.series_id, scenario := s.scenario, method := "acf"
        detected_period := r.period
        confidence := r.confidence.getD 0
        strength := r.confidence.getD 0
        is_seasonal := decide (0 < r.period.getD 0)
        classification := none
        extra := [("acf_values", ExtraVal.nums (r.acf_values.getD []))] }
  | Except.error e =>
      { series_id := s.series_id, scenario := s.scenario, method := "acf"
        detected_period := none, confidence := 0, strength := 0
        is_seasonal := false, classification := none
        extra := [("error", ExtraVal.str e)] }

/-- `run_variance_strength(conn, series, period)`.  On success Python
evaluates `strength if strength else 0.0`, which maps both a NULL result
and an exact zero to `0.0`; this equals `Option.getD _ 0`. -/
def run_variance_strength (B : Backend) (s : SimulatedSeries) (period : ℚ) : DetectionResult :=
  match B.seasonal_strength s.values period "variance" with
  | Except.ok r =>
      { series_id := s.series_id, scenario := s.scenario, method := "variance_strength"
        detected_period := some period
        confidence := r.getD 0
        strength := r.getD 0
        is_seasonal := decide (3/10 < r.getD 0)
        classification := none
        extra := [] }
  | Except.error e =>
      { series_id := s.series_id, scenario := s.scenario, method := "variance_strength"
        detected_period := some period, confidence := 0, strength := 0
        is_seasonal := false, classification := none
        extra := [("error", ExtraVal.str e)] }

/-- `run_spectral_strength(conn, series, period)`. -/
def run_spectral_strength (B : Backend) (s : SimulatedSeries) (period : ℚ) : DetectionResult :=
  match B.seasonal_strength s.values period "spectral" with
  | Except.ok r =>
      { series_id := s.series_id, scenario := s.scenario, method := "spectral_strength"
        detected_period := some period
        confidence := r.getD 0
        strength := r.getD 0
        is_seasonal := decide (3/10 < r.getD 0)
        classification := none
        extra := [] }
  | Except.error e =>
      { series_id := s.series_id, scenario := s.scenario, method := "spectral_strength"
        detected_period := some period, confidence := 0, strength := 0
        is_seasonal := false, classification := none
        extra := [("error", ExtraVal.str e)] }

/-- `run_wavelet_strength(conn, series, period)`. -/
def run_wavelet_strength (B : Backend) (s : SimulatedSeries) (period : ℚ) : DetectionResult :=
  match B.seasonal_strength s.values period "wavelet" with
  | Except.ok r =>
      { series_id := s.series_id, scenario := s.scenario, method := "wavelet_strength"
        detected_period := some period
        confidence := r.getD 0
        strength := r.getD 0
        is_seasonal := decide (3/10 < r.getD 0)
        classification := none
        extra := [] }
  | Except.error e =>
      { series_id := s.series_id, scenario := s.scenario, method := "wavelet_strength"
        detected_period := some period, confidence := 0, strength := 0
        is_seasonal := false, classification := none
        extra := [("error", ExtraVal.str e)] }

/-- `run_classification(conn, series, period)`. -/
def run_classification (B : Backend) (s : SimulatedSeries) (period : ℚ) : DetectionResult :=
  match B.classify_seasonality s.values period with
  | Except.ok r =>
      { series_id := s.series_id, scenario := s.scenario, method := "classification"
        detected_period := some period
        confidence := r.mean_strength.getD 0
        strength := r.mean_strength.getD 0
        is_seasonal := r.is_seasonal.getD false
        classification := r.classification
        extra := [("cycle_strengths", ExtraVal.nums (r.cycle_strengths.getD [])),
                  ("n_cycles", ExtraVal.int (r.n_cycles.getD 0))] }
  | Except.error e =>
      { series_id := s.series_id, scenario := s.scenario, method := "classification"
        detected_period := some period, confidence := 0, strength := 0
        is_seasonal := false, classification := none
        extra := [("error", ExtraVal.str e)] }

/-- `run_change_detection(conn, series, period)`. -/
def run_change_detection (B : Backend) (s : SimulatedSeries) (period : ℚ) : DetectionResult :=
  match B.detect_seasonality_changes s.values period with
  | Except.ok r =>
      { series_id := s.series_id, scenario := s.scenario, method := "change_detection"
        detected_period := some period
        confidence := 0
        strength := 0
        is_seasonal := decide (0 < r.n_changes.getD 0)
        classification := none
        extra := [("n_changes", ExtraVal.int (r.n_changes.getD 0)),
                  ("change_points", ExtraVal.ints (r.change_points.getD [])),
                  ("strength_curve", ExtraVal.nums (r.strength_curve.getD []))] }
  | Except.error e =>
      { series_id := s.series_id, scenario := s.scenario, method := "change_detection"
        detected_period := some period, confidence := 0, strength := 0
        is_seasonal := false, classification := none
        extra := [("error", ExtraVal.str e)] }

/-- The per-series list of the seven method calls, in the fixed order of
the `methods` table of `run_all_methods`. -/
def methodsOn (B : Backend) (known_period : ℚ) (s : SimulatedSeries) : List DetectionResult :=
  [run_fft_detection B s,
   run_acf_detection B s,
   run_variance_strength B s known_period,
   run_spectral_strength B s known_period,
   run_wavelet_strength B s known_period,
   run_classification B s known_period,
   run_change_detection B s known_period]

/-- `run_all_methods(series_list, known_period, show_progress)`: the nested
loop over series and methods (progress printing has no effect on the
result). -/
def run_all_methods (B : Backend) (series_list : List SimulatedSeries)
    (known_period : ℚ) : List DetectionResult :=
  series_list.flatMap (methodsOn B known_period)

/-- The fixed method order. -/
def methodOrder : List String :=
  ["fft", "acf", "variance_strength", "spectral_strength", "wavelet_strength",
   "classification", "change_detection"]

/-- Membership of the key in the `extra` dictionary. -/
def hasErrorKey (extra : List (String × ExtraVal)) : Bool :=
  extra.any fun p => p.1 == "error"

/-- One row of the output table of `results_to_dataframe`. -/
structure OutputRecord where
  series_id : ℕ
  scenario : String
  method : String
  detected_period : Option ℚ
  confidence : ℚ
  strength : ℚ
  is_seasonal : Bool
  classification : Option String
  has_error : Bool
deriving DecidableEq, Repr

/-- The record built for one `DetectionResult` by `results_to_dataframe`. -/
def resultToRecord (r : DetectionResult) : OutputRecord :=
  { series_id := r.series_id, scenario := r.scenario, method := r.method
    detected_period := r.detected_period, confidence := r.confidence
    strength := r.strength, is_seasonal := r.is_seasonal
    classification := r.classification
    has_error := hasErrorKey r.extra }

/-- `results_to_dataframe(results)`. -/
def results_to_dataframe (results : List DetectionResult) : List OutputRecord :=
  results.map resultToRecord

/-- Placeholder detection result used as the default of positional
lookups. -/
def dummyResult : DetectionResult :=
  { series_id := 0, scenario := "", method := "", detected_period := none,
    confidence := 0, strength := 0, is_seasonal := false,
    classification := none, extra := [] }

/-! ### Evaluation (`evaluation.py`) -/

/-- The string value of the `SeasonalityType` enum member. -/
def seasonalityTypeValue : SeasonalityType → String
  | SeasonalityType.NONE => "none"
  | SeasonalityType.WEAK => "weak"
  | SeasonalityType.MODERATE => "moderate"
  | SeasonalityType.STRONG => "strong"
  | SeasonalityType.VARIABLE => "variable"
  | SeasonalityType.EMERGING => "emerging"
  | SeasonalityType.FADING => "fading"

/-- One row of the ground-truth table of `get_ground_truth`. -/
structure GroundTruthRow where
  series_id : ℕ
  scenario : String
  true_period : ℚ
  true_strength : ℚ
  is_seasonal : Bool
  seasonality_type : String
deriving DecidableEq, Repr

/-- The ground-truth record derived from one series: the label is
`seasonality_type != SeasonalityType.NONE`. -/
def groundTruthRow (s : SimulatedSeries) : GroundTruthRow :=
  { series_id := s.series_id, scenario := s.scenario
    true_period := s.true_period, true_strength := s.true_strength
    is_seasonal := decide (s.seasonality_type ≠ SeasonalityType.NONE)
    seasonality_type := seasonalityTypeValue s.seasonality_type }

/-- `get_ground_truth(series_list)`. -/
def get_ground_truth (series_list : List SimulatedSeries) : List GroundTruthRow :=
  series_list.map groundTruthRow

/-- The ground-truth invariant asserted by the spec for a generated
series. -/
def gtInvariant (params : SimulationParams) (s : SimulatedSeries) : Prop :=
  (s.seasonality_type = SeasonalityType.NONE ↔ s.scenario = "no_seasonal") ∧
  (s.seasonality_type = SeasonalityType.NONE →
    s.true_period = 0 ∧ s.true_strength = 0 ∧ (groundTruthRow s).is_seasonal = false) ∧
  (s.seasonality_type ≠ SeasonalityType.NONE →
    s.true_period = params.period ∧ (groundTruthRow s).is_seasonal = true)

/-- The sensitivity value `tp / (tp + fn) if tp + fn > 0 else 0.0`. -/
def st_sens (y_true y_pred : List Bool) : ℚ :=
  if 0 < (List.zip y_true y_pred).countP (fun ab => ab.1 && ab.2) +
      (List.zip y_true y_pred).countP (fun ab => ab.1 && !ab.2) then
    ((((List.zip y_true y_pred).countP fun ab => ab.1 && ab.2) : ℕ) : ℚ) /
      (((((List.zip y_true y_pred).countP fun ab => ab.1 && ab.2) : ℕ) : ℚ) +
        ((((List.zip y_true y_pred).countP fun ab => ab.1 && !ab.2) : ℕ) : ℚ))
  else 0

/-- The specificity value `tn / (tn + fp) if tn + fp > 0 else 0.0`. -/
def st_spec (y_true y_pred : List Bool) : ℚ :=
  if 0 < (List.zip y_true y_pred).countP (fun ab => !ab.1 && !ab.2) +
      (List.zip y_true y_pred).countP (fun ab => !ab.1 && ab.2) then
    ((((List.zip y_true y_pred).countP fun ab => !ab.1 && !ab.2) : ℕ) : ℚ) /
      (((((List.zip y_true y_pred).countP fun ab => !ab.1 && !ab.2) : ℕ) : ℚ) +
        ((((List.zip y_true y_pred).countP fun ab => !ab.1 && ab.2) : ℕ) : ℚ))
  else 0

/-- The precision value `tp / (tp + fp) if tp + fp > 0 else 0.0`. -/
def st_prec (y_true y_pred : List Bool) : ℚ :=
  if 0 < (List.zip y_true y_pred).countP (fun ab => ab.1 && ab.2) +
      (List.zip y_true y_pred).countP (fun ab => !ab.1 && ab.2) then
    ((((List.zip y_true y_pred).countP fun ab => ab.1 && ab.2) : ℕ) : ℚ) /
      (((((List.zip y_true y_pred).countP fun ab => ab.1 && ab.2) : ℕ) : ℚ) +
        ((((List.zip y_true y_pred).countP fun ab => !ab.1 && ab.2) : ℕ) : ℚ))
  else 0

/-- `compute_binary_metrics(y_true, y_pred)`: confusion counts over the
two boolean arrays, each ratio guarded by its denominator. -/
def compute_binary_metrics (y_true y_pred : List Bool) : ℚ × ℚ × ℚ × ℚ × ℚ :=
  let pairs := List.zip y_true y_pred
  let tp := pairs.countP fun ab => ab.1 && ab.2
  let tn := pairs.countP fun ab => !ab.1 && !ab.2
  let fp := pairs.countP fun ab => !ab.1 && ab.2
  let fn := pairs.countP fun ab => ab.1 && !ab.2
  let sensitivity := if 0 < tp + fn then (tp : ℚ) / ((tp : ℚ) + (fn : ℚ)) else 0
  let specificity := if 0 < tn + fp then (tn : ℚ) / ((tn : ℚ) + (fp : ℚ)) else 0
  let precision := if 0 < tp + fp then (tp : ℚ) / ((tp : ℚ) + (fp : ℚ)) else 0
  let f1 := if 0 < precision + sensitivity then
      2 * precision * sensitivity / (precision + sensitivity) else 0
  let accuracy := if 0 < y_true.length then ((tp : ℚ) + (tn : ℚ)) / (y_true.length : ℚ) else 0
  (sensitivity, specificity, precision, f1, accuracy)

/-- Running sums of a list, with accumulator (`np.cumsum`). -/
def cumsumAux (acc : ℚ) : List ℚ → List ℚ
  | [] => []
  | x :: xs => (acc + x) :: cumsumAux (acc + x) xs

/-- `np.cumsum`. -/
def cumsum (l : List ℚ) : List ℚ := cumsumAux 0 l

/-- Trapezoidal integration `np.trapz(y, x)`. -/
def trapz : List ℚ → List ℚ → ℚ
  | y0 :: y1 :: ys, x0 :: x1 :: xs => (x1 - x0) * (y0 + y1) / 2 + trapz (y1 :: ys) (x1 :: xs)
  | _, _ => 0

/-- The trapezoid and cumulative-rate part of `compute_auc_roc`, applied
to the sorted 0/1 label column with positive and negative counts. -/
def aucOf (np nn : ℕ) (y_sorted : List ℚ) : ℚ :=
  trapz (0 :: (cumsum y_sorted).map fun v => v / (np : ℚ))
    (0 :: (cumsum (y_sorted.map fun v => 1 - v)).map fun v => v / (nn : ℚ))

/-- The descending-score order used by `np.argsort(scores)[::-1]`. -/
def scoreDesc (a b : Bool × ℚ) : Prop := b.2 ≤ a.2

instance : DecidableRel scoreDesc := fun a b => inferInstanceAs (Decidable (b.2 ≤ a.2))

instance : IsTotal (Bool × ℚ) scoreDesc := ⟨fun a b => le_total b.2 a.2⟩

instance : IsTrans (Bool × ℚ) scoreDesc := ⟨fun _ _ _ h1 h2 => le_trans h2 h1⟩

/-- `compute_auc_roc(y_true, scores)`: sort by descending score, compute
cumulative true- and false-positive rates, prepend the origin, integrate
by the trapezoidal rule; return exactly 1/2 when either class is empty. -/
def compute_auc_roc (y_true : List Bool) (scores : List ℚ) : ℚ :=
  let pairs := List.zip y_true scores
  let sorted := pairs.insertionSort scoreDesc
  let y_sorted := sorted.map fun p => if p.1 then (1 : ℚ) else 0
  let n_pos := y_true.countP id
  let n_neg := y_true.length - n_pos
  if n_pos = 0 ∨ n_neg = 0 then 1/2
  else aucOf n_pos n_neg y_sorted

/-- Mean of a list of rationals; `none` models the NaN produced by the
mean of an empty pandas column. -/
def meanQ (l : List ℚ) : Option ℚ :=
  if l.length = 0 then none else some (l.sum / (l.length : ℚ))

/-- Mean of a boolean column. -/
def meanBool (l : List Bool) : Option ℚ :=
  if l.length = 0 then none else some ((l.countP id : ℚ) / (l.length : ℚ))

/-- Metrics for a specific scenario (`ScenarioMetrics`); `none` fields
model NaN. -/
structure ScenarioMetrics where
  scenario : String
  n_series : ℕ
  detection_rate : Option ℚ
  mean_confidence : Option ℚ
  mean_strength : Option ℚ
  period_accuracy : Option ℚ
deriving DecidableEq, Repr

/-- `evaluate_scenario(results_df, ground_truth_df, scenario, method)`:
filters to the scenario and method, computes the column means, joins with
the ground truth on `(series_id, scenario)`, and reads
`merged["true_period"].iloc[0]` — which raises an IndexError when the
merged frame is empty (modelled by `Except.error`). -/
def evaluate_scenario (results : List OutputRecord) (ground_truth : List GroundTruthRow)
    (scenario method : String) : Except String ScenarioMetrics :=
  let scenario_df := results.filter fun r => r.scenario == scenario && r.method == method
  let gt_df := ground_truth.filter fun g => g.scenario == scenario
  let n_series := scenario_df.length
  let detection_rate := meanBool (scenario_df.map fun r => r.is_seasonal)
  let mean_confidence := meanQ (scenario_df.map fun r => r.confidence)
  let mean_strength := meanQ (scenario_df.map fun r => r.strength)
  let merged := scenario_df.flatMap fun r =>
    (gt_df.filter fun g => g.series_id == r.series_id && g.scenario == r.scenario).map
      fun g => (r, g)
  match merged with
  | [] => Except.error "single positional indexer is out-of-bounds"
  | m0 :: rest =>
      let period_accuracy :=
        if 0 < m0.2.true_period ∧ (m0 :: rest).any (fun m => m.1.detected_period.isSome) then
          meanBool ((m0 :: rest).map fun m =>
            match m.1.detected_period with
            | none => false
            | some dp => decide (|dp - m.2.true_period| / m.2.true_period < 1/10))
        else none
      Except.ok { scenario := scenario, n_series := n_series
                  detection_rate := detection_rate
                  mean_confidence := mean_confidence
                  mean_strength := mean_strength
                  period_accuracy := period_accuracy }

/-! ### Concrete instances used by witnesses and counterexamples -/

/-- A backend whose every call raises. -/
def failBackend : Backend :=
  { detect_periods := fun _ => Except.error "Binder Error: boom"
    estimate_period_acf := fun _ => Except.error "Binder Error: boom"
    seasonal_strength := fun _ _ _ => Except.error "Binder Error: boom"
    classify_seasonality := fun _ _ => Except.error "Binder Error: boom"
    detect_seasonality_changes := fun _ _ => Except.error "Binder Error: boom" }

/-- The property that the backend raises on every single call. -/
def AllCallsFail (B : Backend) : Prop :=
  (∀ v, ∃ e, B.detect_periods v = Except.error e) ∧
  (∀ v, ∃ e, B.estimate_period_acf v = Except.error e) ∧
  (∀ v p m, ∃ e, B.seasonal_strength v p m = Except.error e) ∧
  (∀ v p, ∃ e, B.classify_seasonality v p = Except.error e) ∧
  (∀ v p, ∃ e, B.detect_seasonality_changes v p = Except.error e)

/-- A small concrete series used in witnesses. -/
def sampleSeries : SimulatedSeries :=
  { values := [1, 2, 3, 4], true_period := 12, true_strength := 9/10,
    seasonality_type := SeasonalityType.STRONG, scenario := "strong_seasonal",
    series_id := 0 }

/-- Malformed simulation parameters: a non-positive series length. -/
def badParams : SimulationParams :=
  { n_points := 0, period := 12, trend_slope := 0, noise_sd := 1, seed := none }

/-- The constantly-zero random stream, used to instantiate witnesses. -/
def zeroStream : ℕ → ℕ → ℚ := fun _ _ => 0

/-- The constantly-zero function on rationals, instantiating `sinQ` and
`expQ` in witnesses. -/
def zeroFn : ℚ → ℚ := fun _ => 0

theorem genLoop_length (build : ℕ → Rng → SimulatedSeries × Rng) (k : ℕ) :
    ∀ (i : ℕ) (g : Rng), ((genLoop build k i g).1).length = k := by
  induction k with
  | zero => intro i g; simp [genLoop]
  | succ k ih => intro i g; simp [genLoop, ih]

theorem genLoop_mem (build : ℕ → Rng → SimulatedSeries × Rng)
    (Q : SimulatedSeries → Prop) (hQ : ∀ i g, Q ((build i g).1)) (k : ℕ) :
    ∀ (i : ℕ) (g : Rng) (s : SimulatedSeries), s ∈ (genLoop build k i g).1 → Q s := by
  induction k with
  | zero => intro i g s hs; simp [genLoop] at hs
  | succ k ih =>
      intro i g s hs
      simp only [genLoop, List.mem_cons] at hs
      rcases hs with h | h
      · exact h ▸ hQ i g
      · exact ih (i + 1) (build i g).2 s h

theorem genLoop_getD_prop (build : ℕ → Rng → SimulatedSeries × Rng)
    (Q : ℕ → SimulatedSeries → Prop) (hQ : ∀ i g, Q i ((build i g).1)) (k : ℕ) :
    ∀ (i : ℕ) (g : Rng) (j : ℕ) (d : SimulatedSeries), j < k →
      Q (i + j) (((genLoop build k i g).1).getD j d) := by
  induction k with
  | zero => intro i g j d hj; omega
  | succ k ih =>
      intro i g j d hj
      cases j with
      | zero => simpa [genLoop] using hQ i g
      | succ j =>
          have h := ih (i + 1) (build i g).2 j d (by omega)
          have hidx : i + 1 + j = i + (j + 1) := by omega
          rw [hidx] at h
          simpa only [genLoop, List.getD_cons_succ] using h

theorem genLoop_getD_stride (build : ℕ → Rng → SimulatedSeries × Rng) (stride : ℕ)
    (hs : ∀ i g, (build i g).2 = ⟨g.seed, g.counter + stride⟩) (k : ℕ) :
    ∀ (i : ℕ) (g : Rng) (j : ℕ) (d : SimulatedSeries), j < k →
      ((genLoop build k i g).1).getD j d = (build (i + j) ⟨g.seed, g.counter + j * stride⟩).1 := by
  induction k with
  | zero => intro i g j d hj; omega
  | succ k ih =>
      intro i g j d hj
      cases j with
      | zero =>
          cases g with
          | mk sd ct => simp [genLoop]
      | succ j =>
          simp only [genLoop, List.getD_cons_succ]
          rw [hs i g]
          have h := ih (i + 1) ⟨g.seed, g.counter + stride⟩ j d (by omega)
          dsimp only at h
          rw [h]
          have hidx : i + 1 + j = i + (j + 1) := by omega
          have harith : g.counter + stride + j * stride = g.counter + (j + 1) * stride := by ring
          rw [hidx, harith]

theorem addThree_map_range_getD (n : ℕ) (f1 f2 f3 : ℕ → ℚ) (t : ℕ) (ht : t < n) :
    (addThree ((List.range n).map f1) ((List.range n).map f2)
        ((List.range n).map f3)).getD t 0 = f1 t + f2 t + f3 t := by
  have hlen : (addThree ((List.range n).map f1) ((List.range n).map f2)
      ((List.range n).map f3)).length = n := by
    simp [addThree]
  rw [List.getD_eq_getElem _ _ (by rw [hlen]; exact ht)]
  simp [addThree]

theorem generate_all_scenarios_length (rnd : ℕ → ℕ → ℚ) (sinQ expQ : ℚ → ℚ) (piQ : ℚ)
    (n : ℕ) (params : SimulationParams) (seed : ℕ) :
    (generate_all_scenarios rnd sinQ expQ piQ n params seed).length = 7 * n := by
  simp only [generate_all_scenarios, generate_scenario_1_strong_seasonal,
    generate_scenario_2_weak_seasonal, generate_scenario_3_no_seasonal,
    generate_scenario_4_trending_seasonal, generate_scenario_5_variable_amplitude,
    generate_scenario_6_emerging_seasonal, generate_scenario_7_fading_seasonal,
    List.length_append, genLoop_length]
  ring

theorem blocks_getD (b1 b2 b3 b4 b5 b6 b7 : List SimulatedSeries) (n : ℕ)
    (h1 : b1.length = n) (h2 : b2.length = n) (h3 : b3.length = n) (h4 : b4.length = n)
    (h5 : b5.length = n) (h6 : b6.length = n) (i : ℕ) (d : SimulatedSeries) :
    (b1 ++ (b2 ++ (b3 ++ (b4 ++ (b5 ++ (b6 ++ b7)))))).getD i d =
      if i < n then b1.getD i d
      else if i < 2 * n then b2.getD (i - n) d
      else if i < 3 * n then b3.getD (i - 2 * n) d
      else if i < 4 * n then b4.getD (i - 3 * n) d
      else if i < 5 * n then b5.getD (i - 4 * n) d
      else if i < 6 * n then b6.getD (i - 5 * n) d
      else b7.getD (i - 6 * n) d := by
  split_ifs with c1 c2 c3 c4 c5 c6
  · rw [List.getD_append _ _ _ _ (by omega)]
  · rw [List.getD_append_right _ _ _ _ (by omega), h1,
      List.getD_append _ _ _ _ (by omega)]
  · rw [List.getD_append_right _ _ _ _ (by omega), h1,
      List.getD_append_right _ _ _ _ (by omega), h2,
      List.getD_append _ _ _ _ (by omega)]
    congr 1
    omega
  · rw [List.getD_append_right _ _ _ _ (by omega), h1,
      List.getD_append_right _ _ _ _ (by omega), h2,
      List.getD_append_right _ _ _ _ (by omega), h3,
      List.getD_append _ _ _ _ (by omega)]
    congr 1
    omega
  · rw [List.getD_append_right _ _ _ _ (by omega), h1,
      List.getD_append_right _ _ _ _ (by omega), h2,
      List.getD_append_right _ _ _ _ (by omega), h3,
      List.getD_append_right _ _ _ _ (by omega), h4,
      List.getD_append _ _ _ _ (by omega)]
    congr 1
    omega
  · rw [List.getD_append_right _ _ _ _ (by omega), h1,
      List.getD_append_right _ _ _ _ (by omega), h2,
      List.getD_append_right _ _ _ _ (by omega), h3,
      List.getD_append_right _ _ _ _ (by omega), h4,
      List.getD_append_right _ _ _ _ (by omega), h5,
      List.getD_append _ _ _ _ (by omega)]
    congr 1
    omega
  · rw [List.getD_append_right _ _ _ _ (by omega), h1,
      List.getD_append_right _ _ _ _ (by omega), h2,
      List.getD_append_right _ _ _ _ (by omega), h3,
      List.getD_append_right _ _ _ _ (by omega), h4,
      List.getD_append_right _ _ _ _ (by omega), h5,
      List.getD_append_right _ _ _ _ (by omega), h6]
    congr 1
    omega

theorem buildEmerging_stride (rnd : ℕ → ℕ → ℚ) (sinQ expQ : ℚ → ℚ) (piQ : ℚ)
    (params : SimulationParams) : ∀ (i : ℕ) (g : Rng),
    (buildEmerging rnd sinQ expQ piQ params i g).2 =
      ⟨g.seed, g.counter + (params.n_points + 2)⟩ := by
  intro i g
  simp only [buildEmerging, rngUniform, generate_noise, Rng.mk.injEq, true_and]
  omega

/-- Claim C3, counterexample: `generate_all_scenarios` performs no
parameter validation; with the malformed `n_points = 0` it still produces
7 series (the claim says none may be produced). -/
theorem claim_C3_counterexample :
    badParams.n_points = 0 ∧
    (generate_all_scenarios zeroStream zeroFn zeroFn 0 1 badParams 42).length = 7 := by
  refine ⟨rfl, ?_⟩
  rw [generate_all_scenarios_length]

/-- Claim C3, amended: `generate_all_scenarios` does not reject malformed
parameters; for non-positive `n_points` or `period` it still runs every
scenario generator and returns `7 * n` series. -/
theorem claim_C3_amended (rnd : ℕ → ℕ → ℚ) (sinQ expQ : ℚ → ℚ) (piQ : ℚ)
    (n : ℕ) (params : SimulationParams) (seed : ℕ)
    (hbad : params.n_points = 0 ∨ params.period ≤ 0) :
    (generate_all_scenarios rnd sinQ expQ piQ n params seed).length = 7 * n :=
  generate_all_scenarios_length rnd sinQ expQ piQ n params seed

theorem claim_C3_amended_witness :
    (badParams.n_points = 0 ∨ badParams.period ≤ 0) ∧
    (generate_all_scenarios zeroStream zeroFn zeroFn 0 1 badParams 42).length = 7 * 1 :=
  ⟨Or.inl rfl, claim_C3_amended zeroStream zeroFn zeroFn 0 1 badParams 42 (Or.inl rfl)⟩

/-- Claim C4: determinism.  The embedded generator is a pure function of
the seed, the parameters and the count (the numpy generator is modelled
as the deterministic stream `rnd seed`, threaded sequentially), so two
runs with the same arguments agree on length and on every field of every
series, element for element. -/
theorem claim_C4_determinism (rnd : ℕ → ℕ → ℚ) (sinQ expQ : ℚ → ℚ) (piQ : ℚ)
    (n : ℕ) (params : SimulationParams) (seed : ℕ) (hn : 1 ≤ n) :
    (generate_all_scenarios rnd sinQ expQ piQ n params seed).length =
      (generate_all_scenarios rnd sinQ expQ piQ n params seed).length ∧
    ∀ i t : ℕ,
      ((((generate_all_scenarios rnd sinQ expQ piQ n params seed).getD i
          dummySeries).values).getD t 0 =
        (((generate_all_scenarios rnd sinQ expQ piQ n params seed).getD i
          dummySeries).values).getD t 0) ∧
      (((generate_all_scenarios rnd sinQ expQ piQ n params seed).getD i
          dummySeries).true_period =
        ((generate_all_scenarios rnd sinQ expQ piQ n params seed).getD i
          dummySeries).true_period) ∧
      (((generate_all_scenarios rnd sinQ expQ piQ n params seed).getD i
          dummySeries).true_strength =
        ((generate_all_scenarios rnd sinQ expQ piQ n params seed).getD i
          dummySeries).true_strength) ∧
      (((generate_all_scenarios rnd sinQ expQ piQ n params seed).getD i
          dummySeries).seasonality_type =
        ((generate_all_scenarios rnd sinQ expQ piQ n params seed).getD i
          dummySeries).seasonality_type) ∧
      (((generate_all_scenarios rnd sinQ expQ piQ n params seed).getD i
          dummySeries).scenario =
        ((generate_all_scenarios rnd sinQ expQ piQ n params seed).getD i
          dummySeries).scenario) ∧
      (((generate_all_scenarios rnd sinQ expQ piQ n params seed).getD i
          dummySeries).series_id =
        ((generate_all_scenarios rnd sinQ expQ piQ n params seed).getD i
          dummySeries).series_id) :=
  ⟨rfl, fun _ _ => ⟨rfl, rfl, rfl, rfl, rfl, rfl⟩⟩

theorem claim_C4_determinism_witness :
    1 ≤ 1 ∧
    (generate_all_scenarios zeroStream zeroFn zeroFn 0 1 badParams 42).length =
      (generate_all_scenarios zeroStream zeroFn zeroFn 0 1 badParams 42).length :=
  ⟨Nat.le_refl 1,
    (claim_C4_determinism zeroStream zeroFn zeroFn 0 1 badParams 42 (Nat.le_refl 1)).1⟩

theorem genLoop_getD_scn (build : ℕ → Rng → SimulatedSeries × Rng) (name : String)
    (hQ : ∀ (i : ℕ) (g : Rng),
      ((build i g).1).scenario = name ∧ ((build i g).1).series_id = i)
    (k j : ℕ) (g : Rng) (d : SimulatedSeries) (hj : j < k) :
    (((genLoop build k 0 g).1).getD j d).scenario = name ∧
    (((genLoop build k 0 g).1).getD j d).series_id = j := by
  have h := genLoop_getD_prop build (fun idx s => s.scenario = name ∧ s.series_id = idx)
    hQ k 0 g j d hj
  simpa using h

/-- Claim C5: `generate_all_scenarios` returns exactly `7 * n` series in
seven contiguous blocks of `n`, with the scenario tags in the fixed block
order and `series_id` running `0 .. n-1` inside each block. -/
theorem claim_C5_cardinality_grouping (rnd : ℕ → ℕ → ℚ) (sinQ expQ : ℚ → ℚ) (piQ : ℚ)
    (n : ℕ) (params : SimulationParams) (seed : ℕ) (hn : 1 ≤ n)
    (hpts : 0 < params.n_points) (hper : 0 < params.period) :
    (generate_all_scenarios rnd sinQ expQ piQ n params seed).length = 7 * n ∧
    ∀ i, i < 7 * n →
      ((generate_all_scenarios rnd sinQ expQ piQ n params seed).getD i
          dummySeries).scenario = scenarioOrder.getD (i / n) "" ∧
      ((generate_all_scenarios rnd sinQ expQ piQ n params seed).getD i
          dummySeries).series_id = i % n := by
  refine ⟨generate_all_scenarios_length rnd sinQ expQ piQ n params seed, fun i hi => ?_⟩
  have hd := Nat.div_add_mod i n
  simp only [generate_all_scenarios, generate_scenario_1_strong_seasonal,
    generate_scenario_2_weak_seasonal, generate_scenario_3_no_seasonal,
    generate_scenario_4_trending_seasonal, generate_scenario_5_variable_amplitude,
    generate_scenario_6_emerging_seasonal, generate_scenario_7_fading_seasonal]
  rw [blocks_getD _ _ _ _ _ _ _ n (genLoop_length _ n 0 _) (genLoop_length _ n 0 _)
    (genLoop_length _ n 0 _) (genLoop_length _ n 0 _) (genLoop_length _ n 0 _)
    (genLoop_length _ n 0 _) i dummySeries]
  have hcase : i < n ∨ (n ≤ i ∧ i < 2 * n) ∨ (2 * n ≤ i ∧ i < 3 * n) ∨
      (3 * n ≤ i ∧ i < 4 * n) ∨ (4 * n ≤ i ∧ i < 5 * n) ∨
      (5 * n ≤ i ∧ i < 6 * n) ∨ (6 * n ≤ i ∧ i < 7 * n) := by omega
  rcases hcase with hc | hc | hc | hc | hc | hc | hc
  · have hdiv : i / n = 0 := Nat.div_eq_of_lt_le (by omega) (by omega)
    rw [hdiv] at hd
    rw [if_pos hc, hdiv, show i % n = i by omega]
    exact genLoop_getD_scn (buildStrong rnd sinQ piQ params) "strong_seasonal"
      (fun idx g => by simp [buildStrong]) n i _ dummySeries hc
  · have hdiv : i / n = 1 := Nat.div_eq_of_lt_le (by omega) (by omega)
    rw [hdiv] at hd
    rw [if_neg (by omega), if_pos (by omega), hdiv, show i % n = i - n by omega]
    exact genLoop_getD_scn (buildWeak rnd sinQ piQ params) "weak_seasonal"
      (fun idx g => by simp [buildWeak]) n (i - n) _ dummySeries (by omega)
  · have hdiv : i / n = 2 := Nat.div_eq_of_lt_le (by omega) (by omega)
    rw [hdiv] at hd
    rw [if_neg (by omega), if_neg (by omega), if_pos (by omega), hdiv,
      show i % n = i - 2 * n by omega]
    exact genLoop_getD_scn (buildNone rnd params) "no_seasonal"
      (fun idx g => by simp [buildNone]) n (i - 2 * n) _ dummySeries (by omega)
  · have hdiv : i / n = 3 := Nat.div_eq_of_lt_le (by omega) (by omega)
    rw [hdiv] at hd
    rw [if_neg (by omega), if_neg (by omega), if_neg (by omega), if_pos (by omega), hdiv,
      show i % n = i - 3 * n by omega]
    exact genLoop_getD_scn (buildTrending rnd sinQ piQ params) "trending_seasonal"
      (fun idx g => by simp [buildTrending]) n (i - 3 * n) _ dummySeries (by omega)
  · have hdiv : i / n = 4 := Nat.div_eq_of_lt_le (by omega) (by omega)
    rw [hdiv] at hd
    rw [if_neg (by omega), if_neg (by omega), if_neg (by omega), if_neg (by omega),
      if_pos (by omega), hdiv, show i % n = i - 4 * n by omega]
    exact genLoop_getD_scn (buildVariable rnd sinQ piQ params) "variable_amplitude"
      (fun idx g => by simp [buildVariable]) n (i - 4 * n) _ dummySeries (by omega)
  · have hdiv : i / n = 5 := Nat.div_eq_of_lt_le (by omega) (by omega)
    rw [hdiv] at hd
    rw [if_neg (by omega), if_neg (by omega), if_neg (by omega), if_neg (by omega),
      if_neg (by omega), if_pos (by omega), hdiv, show i % n = i - 5 * n by omega]
    exact genLoop_getD_scn (buildEmerging rnd sinQ expQ piQ params) "emerging_seasonal"
      (fun idx g => by simp [buildEmerging]) n (i - 5 * n) _ dummySeries (by omega)
  · have hdiv : i / n = 6 := Nat.div_eq_of_lt_le (by omega) (by omega)
    rw [hdiv] at hd
    rw [if_neg (by omega), if_neg (by omega), if_neg (by omega), if_neg (by omega),
      if_neg (by omega), if_neg (by omega), hdiv, show i % n = i - 6 * n by omega]
    exact genLoop_getD_scn (buildFading rnd sinQ expQ piQ params) "fading_seasonal"
      (fun idx g => by simp [buildFading]) n (i - 6 * n) _ dummySeries (by omega)

theorem claim_C5_cardinality_grouping_witness :
    (generate_all_scenarios zeroStream zeroFn zeroFn 0 1
        { n_points := 2, period := 12, trend_slope := 0, noise_sd := 1, seed := none }
        42).length = 7 * 1 :=
  (claim_C5_cardinality_grouping zeroStream zeroFn zeroFn 0 1
    { n_points := 2, period := 12, trend_slope := 0, noise_sd := 1, seed := none } 42
    (Nat.le_refl 1) (by norm_num) (by norm_num)).1

/-- Claim C6: ground-truth invariant.  A series of the generated
population has `seasonality_type = NONE` exactly when its scenario is
`no_seasonal`; in that case `true_period = 0`, `true_strength = 0` and the
`get_ground_truth` label is false; otherwise `true_period = params.period`
and the label is true. -/
theorem claim_C6_ground_truth (rnd : ℕ → ℕ → ℚ) (sinQ expQ : ℚ → ℚ) (piQ : ℚ)
    (n : ℕ) (params : SimulationParams) (seed : ℕ) :
    ∀ s ∈ generate_all_scenarios rnd sinQ expQ piQ n params seed, gtInvariant params s := by
  intro s hs
  simp only [generate_all_scenarios, generate_scenario_1_strong_seasonal,
    generate_scenario_2_weak_seasonal, generate_scenario_3_no_seasonal,
    generate_scenario_4_trending_seasonal, generate_scenario_5_variable_amplitude,
    generate_scenario_6_emerging_seasonal, generate_scenario_7_fading_seasonal,
    List.mem_append] at hs
  rcases hs with h | h | h | h | h | h | h
  · exact genLoop_mem _ (gtInvariant params)
      (fun i g => by simp [gtInvariant, buildStrong, groundTruthRow]) n 0 _ s h
  · exact genLoop_mem _ (gtInvariant params)
      (fun i g => by simp [gtInvariant, buildWeak, groundTruthRow]) n 0 _ s h
  · exact genLoop_mem _ (gtInvariant params)
      (fun i g => by simp [gtInvariant, buildNone, groundTruthRow]) n 0 _ s h
  · exact genLoop_mem _ (gtInvariant params)
      (fun i g => by simp [gtInvariant, buildTrending, groundTruthRow]) n 0 _ s h
  · exact genLoop_mem _ (gtInvariant params)
      (fun i g => by simp [gtInvariant, buildVariable, groundTruthRow]) n 0 _ s h
  · exact genLoop_mem _ (gtInvariant params)
      (fun i g => by simp [gtInvariant, buildEmerging, groundTruthRow]) n 0 _ s h
  · exact genLoop_mem _ (gtInvariant params)
      (fun i g => by simp [gtInvariant, buildFading, groundTruthRow]) n 0 _ s h

theorem claim_C6_ground_truth_witness :
    gtInvariant
      { n_points := 1, period := 12, trend_slope := 0, noise_sd := 1, seed := none }
      ((generate_all_scenarios zeroStream zeroFn zeroFn 0 1
        { n_points := 1, period := 12, trend_slope := 0, noise_sd := 1, seed := none }
        42).getD 0 dummySeries) := by
  have hlen : 0 < (generate_all_scenarios zeroStream zeroFn zeroFn 0 1
      { n_points := 1, period := 12, trend_slope := 0, noise_sd := 1, seed := none }
      42).length := by
    rw [generate_all_scenarios_length]
    norm_num
  have hmem : (generate_all_scenarios zeroStream zeroFn zeroFn 0 1
      { n_points := 1, period := 12, trend_slope := 0, noise_sd := 1, seed := none }
      42).getD 0 dummySeries ∈
      generate_all_scenarios zeroStream zeroFn zeroFn 0 1
        { n_points := 1, period := 12, trend_slope := 0, noise_sd := 1, seed := none }
        42 := by
    rw [List.getD_eq_getElem _ _ hlen]
    exact List.getElem_mem hlen
  exact claim_C6_ground_truth zeroStream zeroFn zeroFn 0 1
    { n_points := 1, period := 12, trend_slope := 0, noise_sd := 1, seed := none }
    42 _ hmem

/-- Claim C9: the `emerging_seasonal` values follow
`trend(t) + amplitude * transition(t) * sin(2*pi*t/period + phase) + noise(t)`
with `trend(t) = 10 + trend_slope * t`, the sigmoid
`transition(t) = 1 / (1 + exp(-(t - midpoint)/width))` at
`midpoint = n_points / 2` and `width = n_points / 10` (integer division),
amplitude the uniform draw from (3, 5) and phase the uniform draw from
(0, 2*pi) of that series. -/
theorem claim_C9_emerging_formula (rnd : ℕ → ℕ → ℚ) (sinQ expQ : ℚ → ℚ) (piQ : ℚ)
    (n_series : ℕ) (params : SimulationParams) (g : Rng) (i t : ℕ)
    (hi : i < n_series) (ht : t < params.n_points) :
    (((generate_scenario_6_emerging_seasonal rnd sinQ expQ piQ n_series params g).1.getD i
        dummySeries).values).getD t 0 =
      (10 + params.trend_slope * t) +
        (rngUniform rnd 3 5 ⟨g.seed, g.counter + i * (params.n_points + 2)⟩).1 *
          (1 / (1 + expQ (-(((t : ℚ) - ((params.n_points / 2 : ℕ) : ℚ)) /
              ((params.n_points / 10 : ℕ) : ℚ))))) *
          sinQ (2 * piQ * t / params.period +
            (rngUniform rnd 0 (2 * piQ)
              ⟨g.seed, g.counter + i * (params.n_points + 2) + 1⟩).1) +
        params.noise_sd * rnd g.seed (g.counter + i * (params.n_points + 2) + 2 + t) := by
  rw [generate_scenario_6_emerging_seasonal,
    genLoop_getD_stride _ (params.n_points + 2)
      (buildEmerging_stride rnd sinQ expQ piQ params) n_series 0 g i dummySeries hi]
  simp only [buildEmerging, rngUniform, generate_trend, generate_noise]
  rw [addThree_map_range_getD _ _ _ _ t ht]

theorem claim_C9_emerging_formula_witness :
    (((generate_scenario_6_emerging_seasonal zeroStream zeroFn zeroFn 0 1
        { n_points := 1, period := 12, trend_slope := 0, noise_sd := 1, seed := none }
        ⟨42, 0⟩).1.getD 0 dummySeries).values).getD 0 0 =
      (10 + 0 * (0 : ℕ)) +
        (rngUniform zeroStream 3 5 ⟨42, 0 + 0 * (1 + 2)⟩).1 *
          (1 / (1 + zeroFn (-((((0 : ℕ) : ℚ) - ((1 / 2 : ℕ) : ℚ)) /
              ((1 / 10 : ℕ) : ℚ))))) *
          zeroFn (2 * 0 * (0 : ℕ) / 12 +
            (rngUniform zeroStream 0 (2 * 0) ⟨42, 0 + 0 * (1 + 2) + 1⟩).1) +
        1 * zeroStream 42 (0 + 0 * (1 + 2) + 2 + 0) :=
  claim_C9_emerging_formula zeroStream zeroFn zeroFn 0 1
    { n_points := 1, period := 12, trend_slope := 0, noise_sd := 1, seed := none }
    ⟨42, 0⟩ 0 0 (by norm_num) (by norm_num)

theorem methodsOn_length (B : Backend) (kp : ℚ) (s : SimulatedSeries) :
    (methodsOn B kp s).length = 7 := by
  simp [methodsOn]

theorem flatMap_length_seven (f : SimulatedSeries → List DetectionResult)
    (hf : ∀ s, (f s).length = 7) (l : List SimulatedSeries) :
    (l.flatMap f).length = 7 * l.length := by
  induction l with
  | nil => simp
  | cons a r ih =>
      simp only [List.flatMap_cons, List.length_append, hf, ih, List.length_cons]
      ring

theorem flatMap_getD_seven (f : SimulatedSeries → List DetectionResult)
    (hf : ∀ s, (f s).length = 7) (l : List SimulatedSeries) :
    ∀ (i : ℕ), i < 7 * l.length → ∀ (d : DetectionResult) (ds : SimulatedSeries),
      (l.flatMap f).getD i d = (f (l.getD (i / 7) ds)).getD (i % 7) d := by
  induction l with
  | nil => intro i hi; simp at hi
  | cons a r ih =>
      intro i hi d ds
      by_cases hc : i < 7
      · rw [List.flatMap_cons, List.getD_append _ _ _ _ (by rw [hf]; omega)]
        rw [show i / 7 = 0 by omega, show i % 7 = i by omega, List.getD_cons_zero]
      · rw [List.flatMap_cons, List.getD_append_right _ _ _ _ (by rw [hf]; omega), hf]
        have hrec := ih (i - 7) (by simp only [List.length_cons] at hi; omega) d ds
        rw [hrec, show i / 7 = (i - 7) / 7 + 1 by omega, List.getD_cons_succ,
          show (i - 7) % 7 = i % 7 by omega]

theorem methodsOn_getD_fields (B : Backend) (kp : ℚ) (s : SimulatedSeries)
    (j : ℕ) (hj : j < 7) (d : DetectionResult) :
    ((methodsOn B kp s).getD j d).series_id = s.series_id ∧
    ((methodsOn B kp s).getD j d).scenario = s.scenario ∧
    ((methodsOn B kp s).getD j d).method = methodOrder.getD j "" := by
  interval_cases j
  · cases hB : B.detect_periods s.values <;>
      simp [methodsOn, run_fft_detection, hB, methodOrder]
  · cases hB : B.estimate_period_acf s.values <;>
      simp [methodsOn, run_acf_detection, hB, methodOrder]
  · cases hB : B.seasonal_strength s.values kp "variance" <;>
      simp [methodsOn, run_variance_strength, hB, methodOrder]
  · cases hB : B.seasonal_strength s.values kp "spectral" <;>
      simp [methodsOn, run_spectral_strength, hB, methodOrder]
  · cases hB : B.seasonal_strength s.values kp "wavelet" <;>
      simp [methodsOn, run_wavelet_strength, hB, methodOrder]
  · cases hB : B.classify_seasonality s.values kp <;>
      simp [methodsOn, run_classification, hB, methodOrder]
  · cases hB : B.detect_seasonality_changes s.values kp <;>
      simp [methodsOn, run_change_detection, hB, methodOrder]

theorem methodsOn_mem_fail (B : Backend) (kp : ℚ) (s : SimulatedSeries)
    (haf : AllCallsFail B) :
    ∀ r ∈ methodsOn B kp s,
      hasErrorKey r.extra = true ∧ r.is_seasonal = false ∧
      (resultToRecord r).has_error = true := by
  intro r hr
  obtain ⟨h1, h2, h3, h4, h5⟩ := haf
  simp only [methodsOn, List.mem_cons, List.not_mem_nil, or_false] at hr
  rcases hr with h | h | h | h | h | h | h
  · obtain ⟨e, hE⟩ := h1 s.values
    subst h
    simp [run_fft_detection, hE, hasErrorKey, resultToRecord]
  · obtain ⟨e, hE⟩ := h2 s.values
    subst h
    simp [run_acf_detection, hE, hasErrorKey, resultToRecord]
  · obtain ⟨e, hE⟩ := h3 s.values kp "variance"
    subst h
    simp [run_variance_strength, hE, hasErrorKey, resultToRecord]
  · obtain ⟨e, hE⟩ := h3 s.values kp "spectral"
    subst h
    simp [run_spectral_strength, hE, hasErrorKey, resultToRecord]
  · obtain ⟨e, hE⟩ := h3 s.values kp "wavelet"
    subst h
    simp [run_wavelet_strength, hE, hasErrorKey, resultToRecord]
  · obtain ⟨e, hE⟩ := h4 s.values kp
    subst h
    simp [run_classification, hE, hasErrorKey, resultToRecord]
  · obtain ⟨e, hE⟩ := h5 s.values kp
    subst h
    simp [run_change_detection, hE, hasErrorKey, resultToRecord]

/-- Claim C1: backend-failure isolation.  For every backend behaviour,
`run_all_methods` returns `7 * len(series_list)` results, one per
(series, method) pair in the fixed method order; and if every backend
call raises, every result carries the `error` key in its extra map (hence
`has_error = true` in the output record) and `is_seasonal = false`. -/
theorem claim_C1_backend_isolation (B : Backend) (series_list : List SimulatedSeries)
    (kp : ℚ) :
    (run_all_methods B series_list kp).length = 7 * series_list.length ∧
    (∀ i, i < 7 * series_list.length →
      ((run_all_methods B series_list kp).getD i dummyResult).series_id =
        (series_list.getD (i / 7) dummySeries).series_id ∧
      ((run_all_methods B series_list kp).getD i dummyResult).scenario =
        (series_list.getD (i / 7) dummySeries).scenario ∧
      ((run_all_methods B series_list kp).getD i dummyResult).method =
        methodOrder.getD (i % 7) "") ∧
    (AllCallsFail B →
      ∀ r ∈ run_all_methods B series_list kp,
        hasErrorKey r.extra = true ∧ r.is_seasonal = false ∧
        (resultToRecord r).has_error = true) := by
  refine ⟨flatMap_length_seven _ (methodsOn_length B kp) series_list, fun i hi => ?_,
    fun haf r hr => ?_⟩
  · rw [run_all_methods,
      flatMap_getD_seven _ (methodsOn_length B kp) series_list i hi dummyResult dummySeries]
    exact methodsOn_getD_fields B kp _ (i % 7) (Nat.mod_lt i (by norm_num)) dummyResult
  · rw [run_all_methods, List.mem_flatMap] at hr
    obtain ⟨s, _, hrs⟩ := hr
    exact methodsOn_mem_fail B kp s haf r hrs

theorem failBackend_allCallsFail : AllCallsFail failBackend :=
  ⟨fun _ => ⟨_, rfl⟩, fun _ => ⟨_, rfl⟩, fun _ _ _ => ⟨_, rfl⟩,
   fun _ _ => ⟨_, rfl⟩, fun _ _ => ⟨_, rfl⟩⟩

theorem claim_C1_backend_isolation_witness :
    (run_all_methods failBackend [sampleSeries] 12).length = 7 * 1 ∧
    ∀ r ∈ run_all_methods failBackend [sampleSeries] 12,
      hasErrorKey r.extra = true := by
  have h := claim_C1_backend_isolation failBackend [sampleSeries] 12
  exact ⟨h.1, fun r hr => (h.2.2 failBackend_allCallsFail r hr).1⟩

/-- Claim C2, counterexample: for the `variance_strength` method a failing
backend call yields `detected_period = known_period`, not `None` — the
result does carry the `error` key, showing that the call failed, yet the
claimed `detected_period = None` is violated. -/
theorem claim_C2_counterexample :
    hasErrorKey (run_variance_strength failBackend sampleSeries 12).extra = true ∧
    (run_variance_strength failBackend sampleSeries 12).detected_period ≠ none := by
  constructor
  · rfl
  · simp [run_variance_strength, failBackend]

/-- Claim C2, amended: on a backend exception every method produces
`confidence = 0`, `strength = 0`, `is_seasonal = false` and
`extra = [("error", message)]`, but only `fft` and `acf` set
`detected_period = None`; the five period-parameterised methods
(`variance_strength`, `spectral_strength`, `wavelet_strength`,
`classification`, `change_detection`) record the supplied period. -/
theorem claim_C2_amended (B : Backend) (s : SimulatedSeries) (kp : ℚ) (e : String) :
    (B.detect_periods s.values = Except.error e →
      run_fft_detection B s =
        { series_id := s.series_id, scenario := s.scenario, method := "fft",
          detected_period := none, confidence := 0, strength := 0,
          is_seasonal := false, classification := none,
          extra := [("error", ExtraVal.str e)] }) ∧
    (B.estimate_period_acf s.values = Except.error e →
      run_acf_detection B s =
        { series_id := s.series_id, scenario := s.scenario, method := "acf",
          detected_period := none, confidence := 0, strength := 0,
          is_seasonal := false, classification := none,
          extra := [("error", ExtraVal.str e)] }) ∧
    (B.seasonal_strength s.values kp "variance" = Except.error e →
      run_variance_strength B s kp =
        { series_id := s.series_id, scenario := s.scenario, method := "variance_strength",
          detected_period := some kp, confidence := 0, strength := 0,
          is_seasonal := false, classification := none,
          extra := [("error", ExtraVal.str e)] }) ∧
    (B.seasonal_strength s.values kp "spectral" = Except.error e →
      run_spectral_strength B s kp =
        { series_id := s.series_id, scenario := s.scenario, method := "spectral_strength",
          detected_period := some kp, confidence := 0, strength := 0,
          is_seasonal := false, classification := none,
          extra := [("error", ExtraVal.str e)] }) ∧
    (B.seasonal_strength s.values kp "wavelet" = Except.error e →
      run_wavelet_strength B s kp =
        { series_id := s.series_id, scenario := s.scenario, method := "wavelet_strength",
          detected_period := some kp, confidence := 0, strength := 0,
          is_seasonal := false, classification := none,
          extra := [("error", ExtraVal.str e)] }) ∧
    (B.classify_seasonality s.values kp = Except.error e →
      run_classification B s kp =
        { series_id := s.series_id, scenario := s.scenario, method := "classification",
          detected_period := some kp, confidence := 0, strength := 0,
          is_seasonal := false, classification := none,
          extra := [("error", ExtraVal.str e)] }) ∧
    (B.detect_seasonality_changes s.values kp = Except.error e →
      run_change_detection B s kp =
        { series_id := s.series_id, scenario := s.scenario, method := "change_detection",
          detected_period := some kp, confidence := 0, strength := 0,
          is_seasonal := false, classification := none,
          extra := [("error", ExtraVal.str e)] }) := by
  refine ⟨fun hB => ?_, fun hB => ?_, fun hB => ?_, fun hB => ?_, fun hB => ?_,
    fun hB => ?_, fun hB => ?_⟩
  · simp [run_fft_detection, hB]
  · simp [run_acf_detection, hB]
  · simp [run_variance_strength, hB]
  · simp [run_spectral_strength, hB]
  · simp [run_wavelet_strength, hB]
  · simp [run_classification, hB]
  · simp [run_change_detection, hB]

theorem claim_C2_amended_witness :
    run_variance_strength failBackend sampleSeries 12 =
      { series_id := sampleSeries.series_id, scenario := sampleSeries.scenario,
        method := "variance_strength", detected_period := some 12, confidence := 0,
        strength := 0, is_seasonal := false, classification := none,
        extra := [("error", ExtraVal.str "Binder Error: boom")] } :=
  (claim_C2_amended failBackend sampleSeries 12 "Binder Error: boom").2.2.1 rfl

theorem ratio_nonneg_le_one (a b : ℕ) :
    0 ≤ (if 0 < a + b then (a : ℚ) / ((a : ℚ) + (b : ℚ)) else 0) ∧
    (if 0 < a + b then (a : ℚ) / ((a : ℚ) + (b : ℚ)) else 0) ≤ 1 := by
  split_ifs with h
  · have hb : (0 : ℚ) < (a : ℚ) + (b : ℚ) := by exact_mod_cast h
    refine ⟨by positivity, ?_⟩
    rw [div_le_one hb]
    have hc : (0 : ℚ) ≤ (b : ℚ) := by positivity
    linarith
  · norm_num

theorem f1_nonneg_le_one (p s : ℚ) (hp : 0 ≤ p) (hp1 : p ≤ 1) (hs : 0 ≤ s) (hs1 : s ≤ 1) :
    0 ≤ (if 0 < p + s then 2 * p * s / (p + s) else 0) ∧
    (if 0 < p + s then 2 * p * s / (p + s) else 0) ≤ 1 := by
  split_ifs with h
  · refine ⟨by positivity, ?_⟩
    rw [div_le_one h]
    nlinarith
  · norm_num

theorem countP_tp_tn_le (l : List (Bool × Bool)) :
    l.countP (fun ab => ab.1 && ab.2) + l.countP (fun ab => !ab.1 && !ab.2) ≤ l.length := by
  induction l with
  | nil => simp
  | cons ab l ih =>
      rcases ab with ⟨a, b⟩
      cases a <;> cases b <;> simp [List.countP_cons] <;> omega

theorem tp_tn_le_length (y_true y_pred : List Bool) :
    (List.zip y_true y_pred).countP (fun ab => ab.1 && ab.2) +
      (List.zip y_true y_pred).countP (fun ab => !ab.1 && !ab.2) ≤ y_true.length := by
  have h1 := countP_tp_tn_le (List.zip y_true y_pred)
  have hziplen : (List.zip y_true y_pred).length ≤ y_true.length := by
    rw [List.length_zip]
    exact min_le_left _ _
  omega

/-- The tuple returned by `compute_binary_metrics`, written out. -/
theorem compute_binary_metrics_eq (y_true y_pred : List Bool) :
    compute_binary_metrics y_true y_pred =
      (st_sens y_true y_pred, st_spec y_true y_pred, st_prec y_true y_pred,
        if 0 < st_prec y_true y_pred + st_sens y_true y_pred then
          2 * st_prec y_true y_pred * st_sens y_true y_pred /
            (st_prec y_true y_pred + st_sens y_true y_pred)
        else 0,
        if 0 < y_true.length then
          ((((List.zip y_true y_pred).countP fun ab => ab.1 && ab.2) : ℚ) +
            (((List.zip y_true y_pred).countP fun ab => !ab.1 && !ab.2) : ℚ)) /
            (y_true.length : ℚ)
        else 0) := rfl

/-- Claim C8: the five binary metrics are total, lie in [0, 1], and are
exactly 0 whenever the corresponding denominator is zero. -/
theorem claim_C8_binary_metrics (y_true y_pred : List Bool)
    (hlen : y_true.length = y_pred.length) :
    ((0 ≤ (compute_binary_metrics y_true y_pred).1 ∧
        (compute_binary_metrics y_true y_pred).1 ≤ 1) ∧
      (0 ≤ (compute_binary_metrics y_true y_pred).2.1 ∧
        (compute_binary_metrics y_true y_pred).2.1 ≤ 1) ∧
      (0 ≤ (compute_binary_metrics y_true y_pred).2.2.1 ∧
        (compute_binary_metrics y_true y_pred).2.2.1 ≤ 1) ∧
      (0 ≤ (compute_binary_metrics y_true y_pred).2.2.2.1 ∧
        (compute_binary_metrics y_true y_pred).2.2.2.1 ≤ 1) ∧
      (0 ≤ (compute_binary_metrics y_true y_pred).2.2.2.2 ∧
        (compute_binary_metrics y_true y_pred).2.2.2.2 ≤ 1)) ∧
    ((List.zip y_true y_pred).countP (fun ab => ab.1 && ab.2) +
        (List.zip y_true y_pred).countP (fun ab => ab.1 && !ab.2) = 0 →
      (compute_binary_metrics y_true y_pred).1 = 0) ∧
    ((List.zip y_true y_pred).countP (fun ab => !ab.1 && !ab.2) +
        (List.zip y_true y_pred).countP (fun ab => !ab.1 && ab.2) = 0 →
      (compute_binary_metrics y_true y_pred).2.1 = 0) ∧
    ((List.zip y_true y_pred).countP (fun ab => ab.1 && ab.2) +
        (List.zip y_true y_pred).countP (fun ab => !ab.1 && ab.2) = 0 →
      (compute_binary_metrics y_true y_pred).2.2.1 = 0) ∧
    ((compute_binary_metrics y_true y_pred).2.2.1 +
        (compute_binary_metrics y_true y_pred).1 = 0 →
      (compute_binary_metrics y_true y_pred).2.2.2.1 = 0) ∧
    (y_true.length = 0 → (compute_binary_metrics y_true y_pred).2.2.2.2 = 0) := by
  rw [compute_binary_metrics_eq]
  have hsens := ratio_nonneg_le_one
    ((List.zip y_true y_pred).countP fun ab => ab.1 && ab.2)
    ((List.zip y_true y_pred).countP fun ab => ab.1 && !ab.2)
  have hspec := ratio_nonneg_le_one
    ((List.zip y_true y_pred).countP fun ab => !ab.1 && !ab.2)
    ((List.zip y_true y_pred).countP fun ab => !ab.1 && ab.2)
  have hprec := ratio_nonneg_le_one
    ((List.zip y_true y_pred).countP fun ab => ab.1 && ab.2)
    ((List.zip y_true y_pred).countP fun ab => !ab.1 && ab.2)
  have hf1 := f1_nonneg_le_one (st_prec y_true y_pred) (st_sens y_true y_pred)
    hprec.1 hprec.2 hsens.1 hsens.2
  have hacc : 0 ≤ (if 0 < y_true.length then
      ((((List.zip y_true y_pred).countP fun ab => ab.1 && ab.2) : ℚ) +
        (((List.zip y_true y_pred).countP fun ab => !ab.1 && !ab.2) : ℚ)) /
        (y_true.length : ℚ) else 0) ∧
      (if 0 < y_true.length then
      ((((List.zip y_true y_pred).countP fun ab => ab.1 && ab.2) : ℚ) +
        (((List.zip y_true y_pred).countP fun ab => !ab.1 && !ab.2) : ℚ)) /
        (y_true.length : ℚ) else 0) ≤ 1 := by
    split_ifs with h
    · have hl : (0 : ℚ) < (y_true.length : ℚ) := by exact_mod_cast h
      refine ⟨by positivity, ?_⟩
      rw [div_le_one hl]
      have := tp_tn_le_length y_true y_pred
      exact_mod_cast this
    · norm_num
  refine ⟨⟨hsens, hspec, hprec, hf1, hacc⟩, fun h0 => ?_, fun h0 => ?_, fun h0 => ?_,
    fun h0 => ?_, fun h0 => ?_⟩
  · exact if_neg (by omega)
  · exact if_neg (by omega)
  · exact if_neg (by omega)
  · exact if_neg (by rw [h0]; norm_num)
  · exact if_neg (by omega)

theorem claim_C8_binary_metrics_witness :
    0 ≤ (compute_binary_metrics [false] [false]).1 ∧
    (compute_binary_metrics [false] [false]).1 ≤ 1 :=
  (claim_C8_binary_metrics [false] [false] rfl).1.1

theorem trapz_ynil (xs : List ℚ) : trapz [] xs = 0 := by cases xs <;> rfl

theorem trapz_ysingle (y : ℚ) (xs : List ℚ) : trapz [y] xs = 0 := by
  cases xs with
  | nil => rfl
  | cons x xtl => cases xtl <;> rfl

theorem trapz_xnil (ys : List ℚ) : trapz ys [] = 0 := by
  cases ys with
  | nil => rfl
  | cons y ytl => cases ytl <;> rfl

theorem trapz_xsingle (ys : List ℚ) (x : ℚ) : trapz ys [x] = 0 := by
  cases ys with
  | nil => rfl
  | cons y ytl => cases ytl <;> rfl

theorem trapz_cons2 (y0 y1 x0 x1 : ℚ) (ys xs : List ℚ) :
    trapz (y0 :: y1 :: ys) (x0 :: x1 :: xs) =
      (x1 - x0) * (y0 + y1) / 2 + trapz (y1 :: ys) (x1 :: xs) := rfl

theorem trapz_const_x (c : ℚ) : ∀ (ys xs : List ℚ), (∀ x ∈ xs, x = c) → trapz ys xs = 0 := by
  intro ys
  induction ys with
  | nil => intro xs _; exact trapz_ynil xs
  | cons y0 ytl ih =>
      intro xs h
      cases ytl with
      | nil => exact trapz_ysingle y0 xs
      | cons y1 ytl2 =>
          cases xs with
          | nil => exact trapz_xnil _
          | cons x0 xtl =>
              cases xtl with
              | nil => exact trapz_xsingle _ x0
              | cons x1 xtl2 =>
                  rw [trapz_cons2]
                  have hx0 : x0 = c := h x0 (by simp)
                  have hx1 : x1 = c := h x1 (by simp)
                  have htl : trapz (y1 :: ytl2) (x1 :: xtl2) = 0 :=
                    ih (x1 :: xtl2) (fun x hx => h x (List.mem_cons_of_mem x0 hx))
                  rw [htl, hx0, hx1]
                  ring

theorem trapz_const_y (c : ℚ) : ∀ (xs : List ℚ) (x : ℚ),
    trapz (List.replicate (xs.length + 1) c) (x :: xs) = c * (xs.getLastD x - x) := by
  intro xs
  induction xs with
  | nil =>
      intro x
      simp only [List.length_nil, List.replicate, List.getLastD_nil]
      rw [trapz_ysingle]
      ring
  | cons x1 xtl ih =>
      intro x
      rw [show (x1 :: xtl).length + 1 = xtl.length + 1 + 1 from rfl]
      rw [List.replicate_succ, List.replicate_succ]
      rw [trapz_cons2]
      rw [show (c :: List.replicate xtl.length c) = List.replicate (xtl.length + 1) c from rfl]
      rw [ih x1]
      rw [List.getLastD_cons]
      ring

theorem trapz_split : ∀ (ys1 xs1 : List ℚ) (y x : ℚ) (ys2 xs2 : List ℚ),
    ys1.length = xs1.length →
    trapz (ys1 ++ y :: ys2) (xs1 ++ x :: xs2) =
      trapz (ys1 ++ [y]) (xs1 ++ [x]) + trapz (y :: ys2) (x :: xs2) := by
  intro ys1
  induction ys1 with
  | nil =>
      intro xs1 y x ys2 xs2 hlen
      have hx : xs1 = [] := List.eq_nil_of_length_eq_zero hlen.symm
      subst hx
      simp only [List.nil_append]
      rw [trapz_ysingle]
      ring
  | cons a ys1' ih =>
      intro xs1 y x ys2 xs2 hlen
      cases xs1 with
      | nil => simp at hlen
      | cons b xs1' =>
          have hlen' : ys1'.length = xs1'.length := by simpa using hlen
          cases ys1' with
          | nil =>
              have hx : xs1' = [] := List.eq_nil_of_length_eq_zero hlen'.symm
              subst hx
              simp only [List.cons_append, List.nil_append]
              rw [trapz_cons2, trapz_cons2, trapz_ysingle]
              ring
          | cons a2 ys1'' =>
              cases xs1' with
              | nil => simp at hlen'
              | cons b2 xs1'' =>
                  simp only [List.cons_append]
                  rw [trapz_cons2, trapz_cons2]
                  have hrec := ih (b2 :: xs1'') y x ys2 xs2 (by simpa using hlen')
                  simp only [List.cons_append] at hrec
                  rw [hrec]
                  ring

theorem cumsumAux_length (acc : ℚ) (l : List ℚ) : (cumsumAux acc l).length = l.length := by
  induction l generalizing acc with
  | nil => rfl
  | cons x xs ih => simp [cumsumAux, ih]

theorem cumsumAux_zeros_append (n : ℕ) : ∀ (acc : ℚ) (rest : List ℚ),
    cumsumAux acc (List.replicate n 0 ++ rest) = List.replicate n acc ++ cumsumAux acc rest := by
  induction n with
  | zero => intro acc rest; simp
  | succ n ih =>
      intro acc rest
      rw [List.replicate_succ, List.cons_append]
      rw [show cumsumAux acc ((0:ℚ) :: (List.replicate n 0 ++ rest)) =
        (acc + 0) :: cumsumAux (acc + 0) (List.replicate n 0 ++ rest) from rfl]
      rw [add_zero, ih acc rest, List.replicate_succ, List.cons_append]

theorem cumsumAux_ones_append (n : ℕ) : ∀ (acc : ℚ) (rest : List ℚ),
    cumsumAux acc (List.replicate n 1 ++ rest) =
      (List.range n).map (fun j : ℕ => acc + ((j : ℚ) + 1)) ++ cumsumAux (acc + n) rest := by
  induction n with
  | zero => intro acc rest; simp
  | succ n ih =>
      intro acc rest
      rw [List.replicate_succ, List.cons_append]
      rw [show cumsumAux acc ((1:ℚ) :: (List.replicate n 1 ++ rest)) =
        (acc + 1) :: cumsumAux (acc + 1) (List.replicate n 1 ++ rest) from rfl]
      rw [ih (acc + 1) rest]
      rw [List.range_succ_eq_map]
      simp only [List.map_cons, List.map_map, Nat.cast_zero, List.cons_append]
      congr 2
      · norm_num
      · apply List.map_congr_left
        intro j _
        simp only [Function.comp]
        push_cast
        ring
      · congr 1
        push_cast
        ring

theorem cumsum_ones_zeros (p q : ℕ) :
    cumsum (List.replicate p (1:ℚ) ++ List.replicate q 0) =
      (List.range p).map (fun j : ℕ => ((j : ℚ) + 1)) ++ List.replicate q ((p : ℕ) : ℚ) := by
  rw [cumsum, cumsumAux_ones_append]
  congr 1
  · apply List.map_congr_left
    intro j _
    ring
  · rw [show List.replicate q (0:ℚ) = List.replicate q (0:ℚ) ++ [] from (List.append_nil _).symm,
      cumsumAux_zeros_append]
    simp [cumsumAux]

theorem cumsum_zeros_ones (q p : ℕ) :
    cumsum (List.replicate q (0:ℚ) ++ List.replicate p 1) =
      List.replicate q (0:ℚ) ++ (List.range p).map (fun j : ℕ => ((j : ℚ) + 1)) := by
  rw [cumsum, cumsumAux_zeros_append]
  congr 1
  rw [show List.replicate p (1:ℚ) = List.replicate p (1:ℚ) ++ [] from (List.append_nil _).symm,
    cumsumAux_ones_append]
  simp only [cumsumAux, List.append_nil]
  apply List.map_congr_left
  intro j _
  ring

theorem aucOf_ones_zeros (p q : ℕ) (hp : 0 < p) (hq : 0 < q) :
    aucOf p q (List.replicate p (1:ℚ) ++ List.replicate q 0) = 1 := by
  obtain ⟨p', rfl⟩ : ∃ k, p = k + 1 := ⟨p - 1, by omega⟩
  obtain ⟨q', rfl⟩ : ∃ k, q = k + 1 := ⟨q - 1, by omega⟩
  have hPc : (((p' + 1 : ℕ) : ℚ)) ≠ 0 := by positivity
  have hQc : (((q' + 1 : ℕ) : ℚ)) ≠ 0 := by positivity
  rw [aucOf]
  have hmap1 : (List.replicate (p'+1) (1:ℚ) ++ List.replicate (q'+1) 0).map (fun v => 1 - v) =
      List.replicate (p'+1) (0:ℚ) ++ List.replicate (q'+1) 1 := by
    simp
  rw [hmap1, cumsum_ones_zeros, cumsum_zeros_ones]
  have htpr : ((0:ℚ) :: ((List.range (p'+1)).map (fun j : ℕ => ((j : ℚ) + 1)) ++
        List.replicate (q'+1) (((p'+1 : ℕ) : ℚ))).map (fun v => v / ((p'+1 : ℕ) : ℚ))) =
      ((0:ℚ) :: (List.range p').map (fun j : ℕ => ((j:ℚ)+1) / ((p'+1 : ℕ) : ℚ))) ++
        (1:ℚ) :: List.replicate (q'+1) 1 := by
    rw [List.map_append, List.map_map, List.map_replicate, div_self hPc]
    rw [List.range_succ, List.map_append]
    simp only [Function.comp, List.map_cons, List.map_nil, List.cons_append, List.append_assoc,
      List.nil_append]
    congr 3
    rw [show ((p' : ℚ) + 1) = (((p' + 1 : ℕ)) : ℚ) from by push_cast; ring, div_self hPc]
  have hfpr : ((0:ℚ) :: (List.replicate (p'+1) (0:ℚ) ++
        (List.range (q'+1)).map (fun j : ℕ => ((j : ℚ) + 1))).map
          (fun v => v / ((q'+1 : ℕ) : ℚ))) =
      List.replicate (p'+1) (0:ℚ) ++
        (0:ℚ) :: (List.range (q'+1)).map (fun j : ℕ => ((j:ℚ)+1) / ((q'+1 : ℕ) : ℚ)) := by
    rw [List.map_append, List.map_map, List.map_replicate, zero_div]
    rw [show ((0:ℚ) :: (List.replicate (p'+1) (0:ℚ) ++
        (List.range (q'+1)).map ((fun v => v / ((q'+1 : ℕ) : ℚ)) ∘ fun j : ℕ => (j:ℚ)+1))) =
      (List.replicate (p'+2) (0:ℚ) ++
        (List.range (q'+1)).map ((fun v => v / ((q'+1 : ℕ) : ℚ)) ∘ fun j : ℕ => (j:ℚ)+1)) from rfl]
    rw [show List.replicate (p'+2) (0:ℚ) = List.replicate (p'+1) (0:ℚ) ++ [(0:ℚ)] from
      List.replicate_succ' (p'+1) 0]
    rw [List.append_assoc]
    simp [Function.comp]
  rw [htpr, hfpr]
  rw [trapz_split _ _ _ _ _ _ (by simp)]
  have hpart1 : trapz (((0:ℚ) :: (List.range p').map
        (fun j : ℕ => ((j:ℚ)+1) / ((p'+1 : ℕ) : ℚ))) ++ [(1:ℚ)])
      (List.replicate (p'+1) (0:ℚ) ++ [(0:ℚ)]) = 0 := by
    apply trapz_const_x 0
    intro x hx
    rcases List.mem_append.mp hx with h | h
    · exact List.eq_of_mem_replicate h
    · simpa using h
  have hpart2 : trapz ((1:ℚ) :: List.replicate (q'+1) 1)
      ((0:ℚ) :: (List.range (q'+1)).map (fun j : ℕ => ((j:ℚ)+1) / ((q'+1 : ℕ) : ℚ))) = 1 := by
    rw [show ((1:ℚ) :: List.replicate (q'+1) 1) =
      List.replicate (((List.range (q'+1)).map
        (fun j : ℕ => ((j:ℚ)+1) / ((q'+1 : ℕ) : ℚ))).length + 1) (1:ℚ) from by
      rw [List.length_map, List.length_range]
      exact (List.replicate_succ (1:ℚ) (q'+1)).symm]
    rw [trapz_const_y]
    rw [List.range_succ, List.map_append]
    simp only [List.map_cons, List.map_nil]
    rw [List.getLastD_concat]
    rw [show ((q' : ℚ) + 1) = (((q' + 1 : ℕ)) : ℚ) from by push_cast; ring, div_self hQc]
    ring
  rw [hpart1, hpart2]
  ring

theorem aucOf_zeros_ones (p q : ℕ) (hp : 0 < p) (hq : 0 < q) :
    aucOf p q (List.replicate q (0:ℚ) ++ List.replicate p 1) = 0 := by
  obtain ⟨p', rfl⟩ : ∃ k, p = k + 1 := ⟨p - 1, by omega⟩
  obtain ⟨q', rfl⟩ : ∃ k, q = k + 1 := ⟨q - 1, by omega⟩
  have hPc : (((p' + 1 : ℕ) : ℚ)) ≠ 0 := by positivity
  have hQc : (((q' + 1 : ℕ) : ℚ)) ≠ 0 := by positivity
  rw [aucOf]
  have hmap1 : (List.replicate (q'+1) (0:ℚ) ++ List.replicate (p'+1) 1).map (fun v => 1 - v) =
      List.replicate (q'+1) (1:ℚ) ++ List.replicate (p'+1) 0 := by
    simp
  rw [hmap1, cumsum_zeros_ones, cumsum_ones_zeros]
  have htpr : ((0:ℚ) :: (List.replicate (q'+1) (0:ℚ) ++
        (List.range (p'+1)).map (fun j : ℕ => ((j : ℚ) + 1))).map
          (fun v => v / ((p'+1 : ℕ) : ℚ))) =
      List.replicate (q'+1) (0:ℚ) ++
        (0:ℚ) :: (List.range (p'+1)).map (fun j : ℕ => ((j:ℚ)+1) / ((p'+1 : ℕ) : ℚ)) := by
    rw [List.map_append, List.map_map, List.map_replicate, zero_div]
    rw [show ((0:ℚ) :: (List.replicate (q'+1) (0:ℚ) ++
        (List.range (p'+1)).map ((fun v => v / ((p'+1 : ℕ) : ℚ)) ∘ fun j : ℕ => (j:ℚ)+1))) =
      (List.replicate (q'+2) (0:ℚ) ++
        (List.range (p'+1)).map ((fun v => v / ((p'+1 : ℕ) : ℚ)) ∘ fun j : ℕ => (j:ℚ)+1)) from rfl]
    rw [show List.replicate (q'+2) (0:ℚ) = List.replicate (q'+1) (0:ℚ) ++ [(0:ℚ)] from
      List.replicate_succ' (q'+1) 0]
    rw [List.append_assoc]
    simp [Function.comp]
  have hfpr : ((0:ℚ) :: ((List.range (q'+1)).map (fun j : ℕ => ((j : ℚ) + 1)) ++
        List.replicate (p'+1) (((q'+1 : ℕ) : ℚ))).map (fun v => v / ((q'+1 : ℕ) : ℚ))) =
      ((0:ℚ) :: (List.range q').map (fun j : ℕ => ((j:ℚ)+1) / ((q'+1 : ℕ) : ℚ))) ++
        (1:ℚ) :: List.replicate (p'+1) 1 := by
    rw [List.map_append, List.map_map, List.map_replicate, div_self hQc]
    rw [List.range_succ, List.map_append]
    simp only [Function.comp, List.map_cons, List.map_nil, List.cons_append, List.append_assoc,
      List.nil_append]
    congr 3
    rw [show ((q' : ℚ) + 1) = (((q' + 1 : ℕ)) : ℚ) from by push_cast; ring, div_self hQc]
  rw [htpr, hfpr]
  rw [trapz_split _ _ _ _ _ _ (by simp)]
  have hpart1 : trapz (List.replicate (q'+1) (0:ℚ) ++ [(0:ℚ)])
      (((0:ℚ) :: (List.range q').map (fun j : ℕ => ((j:ℚ)+1) / ((q'+1 : ℕ) : ℚ))) ++ [(1:ℚ)]) = 0 := by
    have hys : List.replicate (q'+1) (0:ℚ) ++ [(0:ℚ)] = List.replicate (q'+2) (0:ℚ) :=
      (List.replicate_succ' (q'+1) 0).symm
    rw [hys]
    rw [show ((0:ℚ) :: (List.range q').map (fun j : ℕ => ((j:ℚ)+1) / ((q'+1 : ℕ) : ℚ))) ++ [(1:ℚ)] =
      (0:ℚ) :: ((List.range q').map (fun j : ℕ => ((j:ℚ)+1) / ((q'+1 : ℕ) : ℚ)) ++ [(1:ℚ)]) from by
        simp]
    rw [show List.replicate (q'+2) (0:ℚ) =
      List.replicate (((List.range q').map (fun j : ℕ => ((j:ℚ)+1) / ((q'+1 : ℕ) : ℚ)) ++
        [(1:ℚ)]).length + 1) (0:ℚ) from by simp]
    rw [trapz_const_y]
    ring
  have hpart2 : trapz ((0:ℚ) :: (List.range (p'+1)).map
        (fun j : ℕ => ((j:ℚ)+1) / ((p'+1 : ℕ) : ℚ)))
      ((1:ℚ) :: List.replicate (p'+1) 1) = 0 := by
    apply trapz_const_x 1
    intro x hx
    rcases List.mem_cons.mp hx with h | h
    · exact h
    · exact List.eq_of_mem_replicate h
  rw [hpart1, hpart2]
  ring

theorem countP_zip_fst : ∀ (ys : List Bool) (ss : List ℚ), ys.length = ss.length →
    (List.zip ys ss).countP (fun p => p.1) = ys.countP id := by
  intro ys
  induction ys with
  | nil => intro ss _; simp
  | cons b ys ih =>
      intro ss h
      cases ss with
      | nil => simp at h
      | cons s ss =>
          simp only [List.zip_cons_cons, List.countP_cons, ih ss (by simpa using h), id]

theorem pairwise_shape : ∀ (l : List (Bool × ℚ)),
    List.Pairwise (fun a b => a.1 = true ∨ b.1 = false) l →
    l.map (fun p => if p.1 then (1:ℚ) else 0) =
      List.replicate (l.countP (fun p => p.1)) (1:ℚ) ++
        List.replicate (l.length - l.countP (fun p => p.1)) 0 := by
  intro l
  induction l with
  | nil => simp
  | cons a l ih =>
      intro hpw
      rcases List.pairwise_cons.mp hpw with ⟨hhead, htail⟩
      have hcle := List.countP_le_length (fun p : Bool × ℚ => p.1) (l := l)
      cases ha : a.1 with
      | true =>
          have hrec := ih htail
          simp only [List.map_cons, ha, if_true, List.countP_cons, List.length_cons]
          rw [hrec]
          rw [show l.length + 1 - (List.countP (fun p : Bool × ℚ => p.1) l + 1) =
            l.length - List.countP (fun p : Bool × ℚ => p.1) l from by omega]
          rw [List.replicate_succ]
          simp
      | false =>
          have hall : ∀ b ∈ l, b.1 = false := by
            intro b hb
            rcases hhead b hb with h | h
            · rw [ha] at h
              exact absurd h (by simp)
            · exact h
          have hcnt : l.countP (fun p => p.1) = 0 := by
            rw [List.countP_eq_zero]
            intro b hb
            simp [hall b hb]
          have hmapl : l.map (fun p => if p.1 then (1:ℚ) else 0) = List.replicate l.length 0 := by
            have : ∀ v ∈ l.map (fun p => if p.1 then (1:ℚ) else 0), v = 0 := by
              intro v hv
              rcases List.mem_map.mp hv with ⟨b, hb, hbe⟩
              rw [← hbe]
              simp [hall b hb]
            have h2 := List.eq_replicate_of_mem this
            simpa using h2
          simp only [List.map_cons, ha, if_false, List.countP_cons, List.length_cons]
          rw [hmapl]
          simp [hcnt, List.replicate_succ]

theorem pairwise_shape_inv : ∀ (l : List (Bool × ℚ)),
    List.Pairwise (fun a b => a.1 = false ∨ b.1 = true) l →
    l.map (fun p => if p.1 then (1:ℚ) else 0) =
      List.replicate (l.length - l.countP (fun p => p.1)) (0:ℚ) ++
        List.replicate (l.countP (fun p => p.1)) 1 := by
  intro l
  induction l with
  | nil => simp
  | cons a l ih =>
      intro hpw
      rcases List.pairwise_cons.mp hpw with ⟨hhead, htail⟩
      have hcle := List.countP_le_length (fun p : Bool × ℚ => p.1) (l := l)
      cases ha : a.1 with
      | false =>
          have hrec := ih htail
          simp only [List.map_cons, ha, if_false, List.countP_cons, List.length_cons]
          rw [hrec]
          rw [show l.length + 1 - (List.countP (fun p : Bool × ℚ => p.1) l +
              if false = true then 1 else 0) =
            (l.length - List.countP (fun p : Bool × ℚ => p.1) l) + 1 from by
              rw [show (if false = true then (1:ℕ) else 0) = 0 from rfl]
              omega]
          rw [List.replicate_succ]
          simp
      | true =>
          have hall : ∀ b ∈ l, b.1 = true := by
            intro b hb
            rcases hhead b hb with h | h
            · rw [ha] at h
              exact absurd h (by simp)
            · exact h
          have hcnt : l.countP (fun p => p.1) = l.length := by
            rw [List.countP_eq_length]
            intro b hb
            simp [hall b hb]
          have hmapl : l.map (fun p => if p.1 then (1:ℚ) else 0) = List.replicate l.length 1 := by
            have : ∀ v ∈ l.map (fun p => if p.1 then (1:ℚ) else 0), v = 1 := by
              intro v hv
              rcases List.mem_map.mp hv with ⟨b, hb, hbe⟩
              rw [← hbe]
              simp [hall b hb]
            have h2 := List.eq_replicate_of_mem this
            simpa using h2
          simp only [List.map_cons, ha, if_true, List.countP_cons, List.length_cons]
          rw [hmapl]
          simp [hcnt, List.replicate_succ]

/-- Claim C7: AUC-ROC boundary cases.  With equal-length label and score
arrays: single-class labels give exactly 1/2; both classes present and
every positive score strictly above every negative score gives exactly 1;
every negative score strictly above every positive score gives exactly
0. -/
theorem claim_C7_auc (y_true : List Bool) (scores : List ℚ)
    (hlen : y_true.length = scores.length) :
    ((∀ b ∈ y_true, b = true) ∨ (∀ b ∈ y_true, b = false) →
      compute_auc_roc y_true scores = 1/2) ∧
    ((∃ b ∈ y_true, b = true) → (∃ b ∈ y_true, b = false) →
      (∀ a ∈ List.zip y_true scores, ∀ c ∈ List.zip y_true scores,
        a.1 = true → c.1 = false → c.2 < a.2) →
      compute_auc_roc y_true scores = 1) ∧
    ((∃ b ∈ y_true, b = true) → (∃ b ∈ y_true, b = false) →
      (∀ a ∈ List.zip y_true scores, ∀ c ∈ List.zip y_true scores,
        a.1 = true → c.1 = false → a.2 < c.2) →
      compute_auc_roc y_true scores = 0) := by
  refine ⟨fun h => ?_, fun hpos hneg hsep => ?_, fun hpos hneg hsep => ?_⟩
  · rcases h with h | h
    · have hc : y_true.countP id = y_true.length := by
        rw [List.countP_eq_length]
        intro a ha
        simp [h a ha]
      simp only [compute_auc_roc]
      rw [if_pos (Or.inr (by omega))]
    · have hc : y_true.countP id = 0 := by
        rw [List.countP_eq_zero]
        intro a ha
        simp [h a ha]
      simp only [compute_auc_roc]
      rw [if_pos (Or.inl hc)]
  · have hcpos : 0 < y_true.countP id := by
      obtain ⟨b, hb, hbt⟩ := hpos
      exact List.countP_pos_iff.mpr ⟨b, hb, by simp [hbt]⟩
    have hcneg : y_true.countP id < y_true.length := by
      obtain ⟨b, hb, hbf⟩ := hneg
      rcases Nat.lt_or_ge (y_true.countP id) y_true.length with hlt | hge
      · exact hlt
      · have hEq : y_true.countP id = y_true.length :=
          le_antisymm (List.countP_le_length _) hge
        have := List.countP_eq_length.mp hEq b hb
        simp [hbf] at this
    simp only [compute_auc_roc]
    rw [if_neg (by omega)]
    have hperm : List.Perm ((List.zip y_true scores).insertionSort scoreDesc)
        (List.zip y_true scores) := List.perm_insertionSort scoreDesc _
    have hsorted : List.Sorted scoreDesc ((List.zip y_true scores).insertionSort scoreDesc) :=
      List.sorted_insertionSort scoreDesc _
    have hpw : List.Pairwise (fun a b : Bool × ℚ => a.1 = true ∨ b.1 = false)
        ((List.zip y_true scores).insertionSort scoreDesc) := by
      refine List.Pairwise.imp_of_mem (fun ha hb hr => ?_) hsorted
      rename_i a b
      by_cases h1 : a.1 = true
      · exact Or.inl h1
      · by_cases h2 : b.1 = true
        · have ha' : a ∈ List.zip y_true scores := (List.Perm.mem_iff hperm).mp ha
          have hb' : b ∈ List.zip y_true scores := (List.Perm.mem_iff hperm).mp hb
          have hcon := hsep b hb' a ha' h2 (by
            cases hA : a.1
            · rfl
            · exact absurd hA h1)
          exact absurd hr (not_le.mpr hcon)
        · refine Or.inr ?_
          cases hB : b.1
          · rfl
          · exact absurd hB h2
    have hshape := pairwise_shape _ hpw
    have hcount : ((List.zip y_true scores).insertionSort scoreDesc).countP (fun p => p.1) =
        y_true.countP id := by
      rw [hperm.countP_eq]
      exact countP_zip_fst y_true scores hlen
    have hlen2 : ((List.zip y_true scores).insertionSort scoreDesc).length = y_true.length := by
      rw [hperm.length_eq, List.length_zip]
      omega
    rw [hshape, hcount, hlen2]
    exact aucOf_ones_zeros _ _ hcpos (by omega)
  · have hcpos : 0 < y_true.countP id := by
      obtain ⟨b, hb, hbt⟩ := hpos
      exact List.countP_pos_iff.mpr ⟨b, hb, by simp [hbt]⟩
    have hcneg : y_true.countP id < y_true.length := by
      obtain ⟨b, hb, hbf⟩ := hneg
      rcases Nat.lt_or_ge (y_true.countP id) y_true.length with hlt | hge
      · exact hlt
      · have hEq : y_true.countP id = y_true.length :=
          le_antisymm (List.countP_le_length _) hge
        have := List.countP_eq_length.mp hEq b hb
        simp [hbf] at this
    simp only [compute_auc_roc]
    rw [if_neg (by omega)]
    have hperm : List.Perm ((List.zip y_true scores).insertionSort scoreDesc)
        (List.zip y_true scores) := List.perm_insertionSort scoreDesc _
    have hsorted : List.Sorted scoreDesc ((List.zip y_true scores).insertionSort scoreDesc) :=
      List.sorted_insertionSort scoreDesc _
    have hpw : List.Pairwise (fun a b : Bool × ℚ => a.1 = false ∨ b.1 = true)
        ((List.zip y_true scores).insertionSort scoreDesc) := by
      refine List.Pairwise.imp_of_mem (fun ha hb hr => ?_) hsorted
      rename_i a b
      by_cases h1 : b.1 = true
      · exact Or.inr h1
      · by_cases h2 : a.1 = true
        · have ha' : a ∈ List.zip y_true scores := (List.Perm.mem_iff hperm).mp ha
          have hb' : b ∈ List.zip y_true scores := (List.Perm.mem_iff hperm).mp hb
          have hcon := hsep a ha' b hb' h2 (by
            cases hB : b.1
            · rfl
            · exact absurd hB h1)
          exact absurd hr (not_le.mpr hcon)
        · refine Or.inl ?_
          cases hA : a.1
          · rfl
          · exact absurd hA h2
    have hshape := pairwise_shape_inv _ hpw
    have hcount : ((List.zip y_true scores).insertionSort scoreDesc).countP (fun p => p.1) =
        y_true.countP id := by
      rw [hperm.countP_eq]
      exact countP_zip_fst y_true scores hlen
    have hlen2 : ((List.zip y_true scores).insertionSort scoreDesc).length = y_true.length := by
      rw [hperm.length_eq, List.length_zip]
      omega
    rw [hshape, hcount, hlen2]
    exact aucOf_zeros_ones _ _ hcpos (by omega)

theorem claim_C7_auc_witness : compute_auc_roc [true, false] [2, 1] = 1 := by
  refine (claim_C7_auc [true, false] [2, 1] rfl).2.1 ⟨true, by simp, rfl⟩
    ⟨false, by simp, rfl⟩ ?_
  decide

/-- Claim C10: when the detection-results table has no rows for the given
(scenario, method) pair, the merged frame is empty and
`merged["true_period"].iloc[0]` raises an IndexError, so
`evaluate_scenario` fails instead of returning NaN-filled metrics. -/
theorem claim_C10_empty_rows_error (results : List OutputRecord)
    (ground_truth : List GroundTruthRow) (scenario method : String)
    (hempty : results.filter (fun r => r.scenario == scenario && r.method == method) = []) :
    evaluate_scenario results ground_truth scenario method =
      Except.error "single positional indexer is out-of-bounds" := by
  simp [evaluate_scenario, hempty]

theorem claim_C10_empty_rows_error_witness :
    evaluate_scenario [] [] "missing_scenario" "fft" =
      Except.error "single positional indexer is out-of-bounds" :=
  claim_C10_empty_rows_error [] [] "missing_scenario" "fft" rfl

end SeasBench
